import Mathlib

/-!
Verification of the grbl_motion_only g-code interpreter (src/grbl/gcode.c,
a 2-axis build of grbl 1.1: config.h sets N_AXIS = 2 and leaves Z_AXIS
undefined, so the letters K and Z are compiled out).

The embedding below is a shallow model of gc_execute_line.  Numeric values
are exact rationals standing for the C floats, machine integers use Nat/Int
with explicit wraparound where the C code narrows, and the line is taken as
the list of (letter, value) words that read_float would deliver.  External
collaborators (EEPROM coordinate reads, the jog executor, check mode) are
an explicit environment argument; they are declared in headers that are not
part of the covered sources, so they are modelled from their call sites and
from the spec.  The three locals axis_0/axis_1/axis_linear of
gc_execute_line are never assigned in the source; they are passed in as
explicit arguments representing the indeterminate contents of the
uninitialized variables.
-/

unseal Rat.add Rat.mul Rat.sub Rat.inv Rat.ofScientific

namespace Grbl

/-- Truncation toward zero, the C library `trunc`. -/
def ratTrunc (q : ℚ) : ℤ := if q < 0 then ⌈q⌉ else ⌊q⌋

/-- Rounding half away from zero, the C library `round`. -/
def ratRound (q : ℚ) : ℤ := if q < 0 then -⌊-q + 1/2⌋ else ⌊q + 1/2⌋

/-- Conversion of the truncated word value to the uint8 `int_value` of
gcode.c (gcode.c:130), with the uint8 wraparound made explicit. -/
def intVal8 (q : ℚ) : ℕ := ((ratTrunc q).emod 256).toNat

/-- Computation of the uint16 `mantissa` of gcode.c (gcode.c:131):
round(100*(value - int_value)), with the uint16 wraparound explicit. -/
def mant16 (q : ℚ) : ℕ := ((ratRound (100 * (q - (intVal8 q : ℚ)))).emod 65536).toNat

/-- The bit macro of nuts_bolts.h, over unbounded naturals (no shift in the
covered paths ever exceeds the word size on the inputs of interest). -/
def bitMask (n : ℕ) : ℕ := 2 ^ n

/-- Fixed two-axis float vector (N_AXIS = 2 in config.h:373). -/
structure GVec where
  x : ℚ
  y : ℚ
  deriving DecidableEq, Repr

/-- Zero vector. -/
def GVec.zero : GVec := ⟨0, 0⟩

/-- Reading of an axis entry by index (X_AXIS = 0, Y_AXIS = 1); out of
range indices return 0 (the C code would be out of bounds there, and no
covered path reads one). -/
def GVec.get (v : GVec) (i : ℕ) : ℚ :=
  if i = 0 then v.x else if i = 1 then v.y else 0

/-- Writing of an axis entry by index. -/
def GVec.set (v : GVec) (i : ℕ) (q : ℚ) : GVec :=
  if i = 0 then { v with x := q } else if i = 1 then { v with y := q } else v

/-- Status codes returned by gc_execute_line (declared in report.h, which is
outside the covered sources; only the identity of each code matters here, so
they are one constructor each). -/
inductive Status where
  | OK
  | EXPECTED_COMMAND_LETTER
  | NEGATIVE_VALUE
  | SETTING_READ_FAIL
  | GCODE_UNSUPPORTED_COMMAND
  | GCODE_MODAL_GROUP_VIOLATION
  | GCODE_COMMAND_VALUE_NOT_INTEGER
  | GCODE_WORD_REPEATED
  | GCODE_AXIS_COMMAND_CONFLICT
  | GCODE_NO_AXIS_WORDS
  | GCODE_NO_AXIS_WORDS_IN_PLANE
  | GCODE_AXIS_WORDS_EXIST
  | GCODE_INVALID_LINE_NUMBER
  | GCODE_UNDEFINED_FEED_RATE
  | GCODE_VALUE_WORD_MISSING
  | GCODE_UNSUPPORTED_COORD_SYS
  | GCODE_G53_INVALID_MOTION_MODE
  | GCODE_ARC_RADIUS_ERROR
  | GCODE_INVALID_TARGET
  | GCODE_UNUSED_WORDS
  | INVALID_JOG_COMMAND
  deriving DecidableEq, Repr

/-- Modal groups of gcode.h (outside the covered sources; the bit positions
are distinct, which is all gcode.c relies on, so an enumeration is used). -/
inductive ModalGroup where
  | G0
  | G1
  | G3
  | G4
  | G5
  | G6
  | G7
  | G12
  | G13
  | M4
  deriving DecidableEq, Repr

/-- Value words of gcode.h (same remark as for the modal groups). -/
inductive Word where
  | F
  | I
  | J
  | K
  | L
  | N
  | P
  | R
  | S
  | X
  | Y
  | Z
  deriving DecidableEq, Repr

/-- Modal state struct gc_modal_t, with the fields gcode.c uses.  The codes
are stored numerically exactly as gcode.c computes them: motion holds the G
number (G0=0, G1=1, G2=2, G3=3, G38.x=140..143, G80=80), feed_rate holds
94-int_value, units holds 21-int_value, distance holds int_value-90,
coord_select holds int_value-54, program_flow holds 3 for M0 (PAUSED, value
from gcode.h) and the M number for M2/M30. -/
structure GcModal where
  motion : ℕ
  feed_rate : ℕ
  units : ℕ
  distance : ℕ
  coord_select : ℕ
  program_flow : ℕ
  deriving DecidableEq, Repr

/-- MOTION_MODE_SEEK (G0). -/
@[simp] def MOTION_MODE_SEEK : ℕ := 0

/-- MOTION_MODE_LINEAR (G1). -/
@[simp] def MOTION_MODE_LINEAR : ℕ := 1

/-- MOTION_MODE_CW_ARC (G2). -/
@[simp] def MOTION_MODE_CW_ARC : ℕ := 2

/-- MOTION_MODE_CCW_ARC (G3). -/
@[simp] def MOTION_MODE_CCW_ARC : ℕ := 3

/-- MOTION_MODE_NONE (G80). -/
@[simp] def MOTION_MODE_NONE : ℕ := 80

/-- PROGRAM_FLOW_RUNNING. -/
@[simp] def PROGRAM_FLOW_RUNNING : ℕ := 0

/-- PROGRAM_FLOW_PAUSED (M0); value 3 from gcode.h, it only needs to differ
from 0, 2 and 30. -/
@[simp] def PROGRAM_FLOW_PAUSED : ℕ := 3

/-- NON_MODAL_SET_COORDINATE_DATA (G10); gcode.c stores the plain G number. -/
@[simp] def NON_MODAL_SET_COORDINATE_DATA : ℕ := 10

/-- NON_MODAL_DWELL (G4). -/
@[simp] def NON_MODAL_DWELL : ℕ := 4

/-- NON_MODAL_ABSOLUTE_OVERRIDE (G53). -/
@[simp] def NON_MODAL_ABSOLUTE_OVERRIDE : ℕ := 53

/-- NON_MODAL_NO_ACTION. -/
@[simp] def NON_MODAL_NO_ACTION : ℕ := 0

/-- MAX_LINE_NUMBER of gcode.c:27. -/
@[simp] def MAX_LINE_NUMBER : ℤ := 10000000

/-- N_COORDINATE_SYSTEM.  Modelled from the spec: settings.h is not among
the covered sources; the spec fixes the coordinate systems as G54..G59,
six systems, matching upstream grbl. -/
@[simp] def N_COORDINATE_SYSTEM : ℕ := 6

/-- AXIS_COMMAND_NONE (gcode.c:29). -/
@[simp] def AXIS_COMMAND_NONE : ℕ := 0

/-- AXIS_COMMAND_NON_MODAL (gcode.c:30). -/
@[simp] def AXIS_COMMAND_NON_MODAL : ℕ := 1

/-- AXIS_COMMAND_MOTION_MODE (gcode.c:31). -/
@[simp] def AXIS_COMMAND_MOTION_MODE : ℕ := 2

/-- Block value words struct gc_values_t as used by gcode.c: f (float),
ijk (float vector), l (uint8), n (int32), p (float), r (float), xyz (float
vector). -/
structure GcValues where
  f : ℚ
  ijk : GVec
  l : ℕ
  n : ℤ
  p : ℚ
  r : ℚ
  xyz : GVec
  deriving DecidableEq, Repr

/-- Parser block struct parser_block_t (the fields gcode.c uses). -/
structure ParserBlock where
  modal : GcModal
  non_modal_command : ℕ
  values : GcValues
  deriving DecidableEq, Repr

/-- Parser state struct parser_state_t (the fields gcode.c uses: modal
state, coordinate system, G92 offset, position, feed rate, line number). -/
structure ParserState where
  modal : GcModal
  coord_system : GVec
  coord_offset : GVec
  position : GVec
  feed_rate : ℚ
  line_number : ℤ
  deriving DecidableEq, Repr

/-- Environment of gc_execute_line: the EEPROM coordinate table read
(settings_read_coord_data, which can fail), the jog executor result, and
whether the system is in check mode.  These collaborators are declared
outside the covered sources and are modelled from their call sites. -/
structure Env where
  readCoord : ℕ → Option GVec
  jogStatus : Status
  checkMode : Bool

/-- A g-code word as delivered by the read_float loop of gcode.c:115-121:
one letter and its numeric value. -/
structure Token where
  letter : Char
  value : ℚ
  deriving DecidableEq, Repr

/-- Scratch data accumulated by the STEP 2 word-ingestion loop: the block
being built, the axis command classifier and the four tracking bitsets
(gcode.c:76-86).  axis_words and ijk_words keep the numeric bitmask form
because the arc code masks them with bits built from the uninitialized
axis indices; the command and value word sets use the enumerations. -/
structure ParseAcc where
  block : ParserBlock
  axis_command : ℕ
  axis_words : ℕ
  ijk_words : ℕ
  command_words : List ModalGroup
  value_words : List Word
  deriving DecidableEq, Repr

/-- Shared tail of the non-modal G commands (the case 4/53 body of
gcode.c:152-160, reached by fallthrough from G10/G28/G30/G92): records the
non-modal command, folds a .1 mantissa of G28/G30/G92 into it and clears
the mantissa. -/
def gBodyNonModal (acc : ParseAcc) (iv m : ℕ) :
    Except Status (ParseAcc × ModalGroup × ℕ) :=
  let acc := { acc with block.non_modal_command := iv }
  if iv = 28 ∨ iv = 30 ∨ iv = 92 then
    if ¬(m = 0 ∨ m = 10) then Except.error Status.GCODE_UNSUPPORTED_COMMAND
    else Except.ok ({ acc with block.non_modal_command := iv + m }, ModalGroup.G0, 0)
  else Except.ok (acc, ModalGroup.G0, m)

/-- Shared tail of the motion G commands (the case 80 body of
gcode.c:167-177, reached by fallthrough from G0/G1/G2/G3/G38): records the
motion mode, folds a G38.x mantissa into it and clears the mantissa. -/
def gBodyMotion (acc : ParseAcc) (iv m : ℕ) :
    Except Status (ParseAcc × ModalGroup × ℕ) :=
  let acc := { acc with block.modal.motion := iv }
  if iv = 38 then
    if ¬(m = 20 ∨ m = 30 ∨ m = 40 ∨ m = 50) then
      Except.error Status.GCODE_UNSUPPORTED_COMMAND
    else Except.ok ({ acc with block.modal.motion := iv + m / 10 + 100 }, ModalGroup.G1, 0)
  else Except.ok (acc, ModalGroup.G1, m)

/-- Dispatch over the G command number: the switch(int_value) of
gcode.c:143-214, including the two fallthrough chains and the axis-command
conflict checks.  Returns the updated scratch, the modal group of the
command, and the remaining mantissa. -/
def gDispatch (acc : ParseAcc) (iv m : ℕ) :
    Except Status (ParseAcc × ModalGroup × ℕ) :=
  if iv = 10 ∨ iv = 28 ∨ iv = 30 ∨ iv = 92 then
    if m = 0 then
      if acc.axis_command ≠ 0 then Except.error Status.GCODE_AXIS_COMMAND_CONFLICT
      else gBodyNonModal { acc with axis_command := AXIS_COMMAND_NON_MODAL } iv m
    else gBodyNonModal acc iv m
  else if iv = 4 ∨ iv = 53 then
    gBodyNonModal acc iv m
  else if iv = 0 ∨ iv = 1 ∨ iv = 2 ∨ iv = 3 ∨ iv = 38 then
    if acc.axis_command ≠ 0 then Except.error Status.GCODE_AXIS_COMMAND_CONFLICT
    else gBodyMotion { acc with axis_command := AXIS_COMMAND_MOTION_MODE } iv m
  else if iv = 80 then
    gBodyMotion acc iv m
  else if iv = 90 ∨ iv = 91 then
    if m = 0 then
      Except.ok ({ acc with block.modal.distance := iv - 90 }, ModalGroup.G3, 0)
    else
      if m ≠ 10 ∨ iv = 90 then Except.error Status.GCODE_UNSUPPORTED_COMMAND
      else Except.ok (acc, ModalGroup.G4, 0)
  else if iv = 93 ∨ iv = 94 then
    Except.ok ({ acc with block.modal.feed_rate := 94 - iv }, ModalGroup.G5, m)
  else if iv = 20 ∨ iv = 21 then
    Except.ok ({ acc with block.modal.units := 21 - iv }, ModalGroup.G6, m)
  else if iv = 40 then
    Except.ok (acc, ModalGroup.G7, m)
  else if 54 ≤ iv ∧ iv ≤ 59 then
    Except.ok ({ acc with block.modal.coord_select := iv - 54 }, ModalGroup.G12, m)
  else if iv = 61 then
    if m ≠ 0 then Except.error Status.GCODE_UNSUPPORTED_COMMAND
    else Except.ok (acc, ModalGroup.G13, 0)
  else Except.error Status.GCODE_UNSUPPORTED_COMMAND

/-- Tail common to every valid G and M command (gcode.c:215-219 and
238-241): a remaining mantissa is a non-integer command error, and a second
command of the same modal group in the block is a modal group violation. -/
def commandTail (res : ParseAcc × ModalGroup × ℕ) : Except Status ParseAcc :=
  let (acc, grp, m) := res
  if m > 0 then Except.error Status.GCODE_COMMAND_VALUE_NOT_INTEGER
  else if grp ∈ acc.command_words then Except.error Status.GCODE_MODAL_GROUP_VIOLATION
  else Except.ok { acc with command_words := grp :: acc.command_words }

/-- The M command switch of gcode.c:222-242. -/
def mDispatch (acc : ParseAcc) (iv m : ℕ) : Except Status ParseAcc :=
  if m > 0 then Except.error Status.GCODE_COMMAND_VALUE_NOT_INTEGER
  else if iv = 0 ∨ iv = 1 ∨ iv = 2 ∨ iv = 30 then
    let acc :=
      if iv = 0 then { acc with block.modal.program_flow := PROGRAM_FLOW_PAUSED }
      else if iv = 1 then acc
      else { acc with block.modal.program_flow := iv }
    commandTail (acc, ModalGroup.M4, 0)
  else Except.error Status.GCODE_UNSUPPORTED_COMMAND

/-- Tail common to every value word (gcode.c:277-283): repeated-word check,
negative-value check for F, N, P and S, and recording of the word. -/
def valueTail (acc : ParseAcc) (w : Word) (value : ℚ) : Except Status ParseAcc :=
  if w ∈ acc.value_words then Except.error Status.GCODE_WORD_REPEATED
  else if (w = Word.F ∨ w = Word.N ∨ w = Word.P ∨ w = Word.S) ∧ value < 0 then
    Except.error Status.NEGATIVE_VALUE
  else Except.ok { acc with value_words := w :: acc.value_words }

/-- Processing of one g-code word: the body of the STEP 2 loop of
gcode.c:115-286.  The letters K and Z are unsupported because Z_AXIS is not
defined in config.h; S and T are likewise absent from the value-word
switch. -/
def processToken (acc : ParseAcc) (t : Token) : Except Status ParseAcc :=
  if t.letter < 'A' ∨ 'Z' < t.letter then Except.error Status.EXPECTED_COMMAND_LETTER
  else if t.letter = 'G' then
    match gDispatch acc (intVal8 t.value) (mant16 t.value) with
    | Except.error e => Except.error e
    | Except.ok res => commandTail res
  else if t.letter = 'M' then
    mDispatch acc (intVal8 t.value) (mant16 t.value)
  else if t.letter = 'F' then
    valueTail { acc with block.values.f := t.value } Word.F t.value
  else if t.letter = 'I' then
    valueTail { acc with block.values.ijk.x := t.value,
                         ijk_words := acc.ijk_words ||| bitMask 0 } Word.I t.value
  else if t.letter = 'J' then
    valueTail { acc with block.values.ijk.y := t.value,
                         ijk_words := acc.ijk_words ||| bitMask 1 } Word.J t.value
  else if t.letter = 'L' then
    valueTail { acc with block.values.l := intVal8 t.value } Word.L t.value
  else if t.letter = 'N' then
    valueTail { acc with block.values.n := ratTrunc t.value } Word.N t.value
  else if t.letter = 'P' then
    valueTail { acc with block.values.p := t.value } Word.P t.value
  else if t.letter = 'R' then
    valueTail { acc with block.values.r := t.value } Word.R t.value
  else if t.letter = 'X' then
    valueTail { acc with block.values.xyz.x := t.value,
                         axis_words := acc.axis_words ||| bitMask 0 } Word.X t.value
  else if t.letter = 'Y' then
    valueTail { acc with block.values.xyz.y := t.value,
                         axis_words := acc.axis_words ||| bitMask 1 } Word.Y t.value
  else Except.error Status.GCODE_UNSUPPORTED_COMMAND

/-- The STEP 2 loop itself. -/
def parseLoop (acc : ParseAcc) : List Token → Except Status ParseAcc
  | [] => Except.ok acc
  | t :: ts =>
    match processToken acc t with
    | Except.error e => Except.error e
    | Except.ok acc2 => parseLoop acc2 ts

/-- STEP 1 of gc_execute_line (gcode.c:73-98): fresh zeroed block, modal
state copied from the parser state, jog blocks forced to G1/G94. -/
def initAcc (s : ParserState) (jog : Bool) : ParseAcc :=
  let modal0 := s.modal
  let modal1 := if jog then { modal0 with motion := MOTION_MODE_LINEAR,
                                          feed_rate := 0 } else modal0
  { block := { modal := modal1, non_modal_command := 0,
               values := { f := 0, ijk := GVec.zero, l := 0, n := 0, p := 0,
                           r := 0, xyz := GVec.zero } },
    axis_command := AXIS_COMMAND_NONE, axis_words := 0, ijk_words := 0,
    command_words := [], value_words := [] }

/-- Removal of a set of words from the value-word tracking set (the
bit_false calls of gcode.c). -/
def wClear (ws rm : List Word) : List Word := ws.filter (fun w => !rm.contains w)

/-- Exact decision of the comparison sqrt T < |sqrt A - sqrt B| for
nonnegative rationals, used to model the float comparisons of the
offset-mode arc check (gcode.c:628-632) without leaving the rationals.
Lemma sqrtDiffGt_iff below proves it equal to the real-valued
comparison. -/
def sqrtDiffGt (A B T : ℚ) : Bool :=
  decide (0 < A + B - T) && decide (4 * A * B < (A + B - T) ^ 2)

/-- Implicit axis command assignment (gcode.c:320-322). -/
def check0 (acc : ParseAcc) : ParseAcc :=
  if acc.axis_words ≠ 0 ∧ acc.axis_command = 0 then
    { acc with axis_command := AXIS_COMMAND_MOTION_MODE }
  else acc

/-- Line number check (gcode.c:325-328). -/
def checkLineNumber (acc : ParseAcc) : Except Status ParseAcc :=
  if Word.N ∈ acc.value_words ∧ acc.block.values.n > MAX_LINE_NUMBER then
    Except.error Status.GCODE_INVALID_LINE_NUMBER
  else Except.ok acc

/-- Feed rate mode and feed rate checks (gcode.c:343-373): jog blocks must
carry F; G93 motion blocks other than G0/G80 must carry F; in G94 with the
previous state also G94 a missing F pushes the last state feed rate. -/
def checkFeed (s : ParserState) (jog : Bool) (acc : ParseAcc) :
    Except Status ParseAcc :=
  if jog then
    if Word.F ∉ acc.value_words then Except.error Status.GCODE_UNDEFINED_FEED_RATE
    else Except.ok acc
  else if acc.block.modal.feed_rate = 1 then
    if acc.axis_command = AXIS_COMMAND_MOTION_MODE ∧
       acc.block.modal.motion ≠ MOTION_MODE_NONE ∧
       acc.block.modal.motion ≠ MOTION_MODE_SEEK ∧
       Word.F ∉ acc.value_words then
      Except.error Status.GCODE_UNDEFINED_FEED_RATE
    else Except.ok acc
  else
    if s.modal.feed_rate = 0 ∧ Word.F ∉ acc.value_words then
      Except.ok { acc with block.values.f := s.feed_rate }
    else Except.ok acc

/-- Dwell P word check (gcode.c:377-380). -/
def checkDwell (acc : ParseAcc) : Except Status ParseAcc :=
  if acc.block.non_modal_command = NON_MODAL_DWELL then
    if Word.P ∉ acc.value_words then Except.error Status.GCODE_VALUE_WORD_MISSING
    else Except.ok { acc with value_words := wClear acc.value_words [Word.P] }
  else Except.ok acc

/-- Coordinate system selection (gcode.c:387-394): loads the block
coordinate system, reading the EEPROM when the selection changed. -/
def loadCoordSys (s : ParserState) (env : Env) (acc : ParseAcc) :
    Except Status GVec :=
  if ModalGroup.G12 ∈ acc.command_words then
    if acc.block.modal.coord_select > N_COORDINATE_SYSTEM then
      Except.error Status.GCODE_UNSUPPORTED_COORD_SYS
    else if s.modal.coord_select ≠ acc.block.modal.coord_select then
      match env.readCoord acc.block.modal.coord_select with
      | none => Except.error Status.SETTING_READ_FAIL
      | some v => Except.ok v
    else Except.ok s.coord_system
  else Except.ok s.coord_system

/-- Per-axis coordinate data update of the G10 branch (gcode.c:430-442). -/
def g10Axis (s : ParserState) (l aw : ℕ) (xyz stored : GVec) (idx : ℕ) : ℚ :=
  if aw &&& bitMask idx ≠ 0 then
    if l = 20 then s.position.get idx - s.coord_offset.get idx - xyz.get idx
    else xyz.get idx
  else stored.get idx

/-- Per-axis target computation of the default branch (gcode.c:450-467). -/
def targetAxis (s : ParserState) (bcs : GVec) (dist nm aw : ℕ) (xyz : GVec)
    (idx : ℕ) : ℚ :=
  if aw &&& bitMask idx = 0 then s.position.get idx
  else if nm ≠ NON_MODAL_ABSOLUTE_OVERRIDE then
    xyz.get idx + (if dist = 0 then bcs.get idx + s.coord_offset.get idx
                   else s.position.get idx)
  else xyz.get idx

/-- Non-modal command checks and target assembly (gcode.c:405-479): the G10
branch validates P and L, loads the stored coordinate data into ijk and
precomputes the changes; the default branch converts axis words to an
absolute machine target and validates G53.  Returns the updated scratch and
the EEPROM slot selected by G10. -/
def checkNonModal (s : ParserState) (env : Env) (bcs : GVec) (acc : ParseAcc) :
    Except Status (ParseAcc × ℕ) :=
  if acc.block.non_modal_command = NON_MODAL_SET_COORDINATE_DATA then
    if acc.axis_words = 0 then Except.error Status.GCODE_NO_AXIS_WORDS
    else if ¬(Word.P ∈ acc.value_words ∨ Word.L ∈ acc.value_words) then
      Except.error Status.GCODE_VALUE_WORD_MISSING
    else
      let cs := intVal8 acc.block.values.p
      if cs > N_COORDINATE_SYSTEM then Except.error Status.GCODE_UNSUPPORTED_COORD_SYS
      else if acc.block.values.l ≠ 20 ∧ acc.block.values.l = 2 ∧
              Word.R ∈ acc.value_words then
        Except.error Status.GCODE_UNSUPPORTED_COMMAND
      else if acc.block.values.l ≠ 20 ∧ acc.block.values.l ≠ 2 then
        Except.error Status.GCODE_UNSUPPORTED_COMMAND
      else
        let acc := { acc with value_words := wClear acc.value_words [Word.L, Word.P] }
        let cs2 := if cs > 0 then cs - 1 else acc.block.modal.coord_select
        match env.readCoord cs2 with
        | none => Except.error Status.SETTING_READ_FAIL
        | some stored =>
          let l := acc.block.values.l
          let aw := acc.axis_words
          let xyz := acc.block.values.xyz
          let ijk2 : GVec := ⟨g10Axis s l aw xyz stored 0, g10Axis s l aw xyz stored 1⟩
          Except.ok ({ acc with block.values.ijk := ijk2 }, cs2)
  else
    let acc :=
      if acc.axis_words ≠ 0 then
        let dist := acc.block.modal.distance
        let nm := acc.block.non_modal_command
        let aw := acc.axis_words
        let xyz := acc.block.values.xyz
        { acc with block.values.xyz :=
            ⟨targetAxis s bcs dist nm aw xyz 0, targetAxis s bcs dist nm aw xyz 1⟩ }
      else acc
    if acc.block.non_modal_command = NON_MODAL_ABSOLUTE_OVERRIDE then
      if ¬(acc.block.modal.motion = MOTION_MODE_SEEK ∨
           acc.block.modal.motion = MOTION_MODE_LINEAR) then
        Except.error Status.GCODE_G53_INVALID_MOTION_MODE
      else Except.ok (acc, 0)
    else Except.ok (acc, 0)

/-- Acceptance decision of the offset-mode tolerance checks of
gcode.c:628-632, on the squared distances A = dist(center,target)^2 and
B = dist(center,current)^2: the source computes delta_r =
|hypot(x,y) - hypot(i,j)| = |sqrt A - sqrt B| and fails when delta_r >
0.005 and (delta_r > 0.5 or delta_r > 0.001*sqrt B); each float comparison
is decided exactly by sqrtDiffGt against the squared thresholds. -/
def arcOffsetOk (A B : ℚ) : Bool :=
  if sqrtDiffGt A B (1 / 40000) then
    if sqrtDiffGt A B (1 / 4) then false
    else if sqrtDiffGt A B (B / 1000000) then false
    else true
  else true

/-- Arc validation of a G2/G3 block (gcode.c:518-633): plane axis words,
then radius mode (same-position check, negative 4r^2-d^2 check, sign
normalization of r) or offset mode (the delta_r tolerance via
arcOffsetOk).  cw records whether the motion is G2. -/
def checkArc (s : ParserState) (a0 a1 : ℕ) (cw : Bool) (acc : ParseAcc) :
    Except Status (ParseAcc × Bool) :=
  if acc.axis_words = 0 then Except.error Status.GCODE_NO_AXIS_WORDS
  else if acc.axis_words &&& (bitMask a0 ||| bitMask a1) = 0 then
    Except.error Status.GCODE_NO_AXIS_WORDS_IN_PLANE
  else
    let x := acc.block.values.xyz.get a0 - s.position.get a0
    let y := acc.block.values.xyz.get a1 - s.position.get a1
    if Word.R ∈ acc.value_words then
      let acc := { acc with value_words := wClear acc.value_words [Word.R] }
      if s.position = acc.block.values.xyz then
        Except.error Status.GCODE_INVALID_TARGET
      else
        let r := acc.block.values.r
        let hsq := 4 * r * r - x * x - y * y
        if hsq < 0 then Except.error Status.GCODE_ARC_RADIUS_ERROR
        else
          let acc := if r < 0 then { acc with block.values.r := -r } else acc
          Except.ok (acc, cw)
    else
      let vw2 := wClear acc.value_words [Word.I, Word.J, Word.K]
      let acc := { acc with value_words := vw2 }
      let i := acc.block.values.ijk.get a0
      let j := acc.block.values.ijk.get a1
      if arcOffsetOk ((x - i) ^ 2 + (y - j) ^ 2) (i ^ 2 + j ^ 2) then
        Except.ok (acc, cw)
      else Except.error Status.GCODE_INVALID_TARGET

/-- Motion mode checks (gcode.c:482-637), with a0/a1 the contents of the
never-assigned locals axis_0/axis_1: G80 rejects axis words, G0/G1 clear
the axis command when no axis word is present, every non-seek motion
requires a nonzero feed rate, and G2/G3 goes through checkArc.  In radius
mode the computed center (gcode.c:585-614) is irrational in general; it is
dead for the returned status and the parser state and is modelled
separately by radiusModeCenter, while the sign normalization of r
(gcode.c:608-611) is kept.  Returns the scratch and the clockwise flag. -/
def checkMotion (s : ParserState) (a0 a1 : ℕ) (acc : ParseAcc) :
    Except Status (ParseAcc × Bool) :=
  if acc.block.modal.motion = MOTION_MODE_NONE then
    if acc.axis_words ≠ 0 then Except.error Status.GCODE_AXIS_WORDS_EXIST
    else Except.ok (acc, false)
  else if acc.axis_command = AXIS_COMMAND_MOTION_MODE then
    if acc.block.modal.motion = MOTION_MODE_SEEK then
      if acc.axis_words = 0 then Except.ok ({ acc with axis_command := 0 }, false)
      else Except.ok (acc, false)
    else if acc.block.values.f = 0 then
      Except.error Status.GCODE_UNDEFINED_FEED_RATE
    else if acc.block.modal.motion = MOTION_MODE_LINEAR then
      if acc.axis_words = 0 then Except.ok ({ acc with axis_command := 0 }, false)
      else Except.ok (acc, false)
    else if acc.block.modal.motion = MOTION_MODE_CW_ARC ∨
            acc.block.modal.motion = MOTION_MODE_CCW_ARC then
      checkArc s a0 a1 (acc.block.modal.motion = MOTION_MODE_CW_ARC) acc
    else Except.ok (acc, false)
  else Except.ok (acc, false)

/-- Unused value word check (gcode.c:643-650). -/
def checkUnused (jog : Bool) (acc : ParseAcc) : Except Status ParseAcc :=
  let vw1 := wClear acc.value_words
      (if jog then [Word.N, Word.F] else [Word.N, Word.F, Word.S])
  let acc := { acc with value_words := vw1 }
  let acc := if acc.axis_command ≠ 0 then
      { acc with value_words := wClear acc.value_words [Word.X, Word.Y, Word.Z] }
    else acc
  if acc.value_words ≠ [] then Except.error Status.GCODE_UNUSED_WORDS
  else Except.ok acc

/-- Result of the STEP 3 error checking: the validated block and the data
STEP 4 needs. -/
structure Checked where
  block : ParserBlock
  axis_command : ℕ
  axis_words : ℕ
  command_words : List ModalGroup
  coord_select : ℕ
  block_coord_system : GVec
  isCW : Bool
  deriving DecidableEq, Repr

/-- The whole of STEP 3 in source order. -/
def checkBlock (s : ParserState) (env : Env) (jog : Bool) (a0 a1 : ℕ)
    (acc : ParseAcc) : Except Status Checked :=
  let acc := check0 acc
  match checkLineNumber acc with
  | Except.error e => Except.error e
  | Except.ok acc =>
  match checkFeed s jog acc with
  | Except.error e => Except.error e
  | Except.ok acc =>
  match checkDwell acc with
  | Except.error e => Except.error e
  | Except.ok acc =>
  match loadCoordSys s env acc with
  | Except.error e => Except.error e
  | Except.ok bcs =>
  match checkNonModal s env bcs acc with
  | Except.error e => Except.error e
  | Except.ok (acc, cs) =>
  match checkMotion s a0 a1 acc with
  | Except.error e => Except.error e
  | Except.ok (acc, cw) =>
  match checkUnused jog acc with
  | Except.error e => Except.error e
  | Except.ok acc =>
    Except.ok { block := acc.block, axis_command := acc.axis_command,
                axis_words := acc.axis_words, command_words := acc.command_words,
                coord_select := cs, block_coord_system := bcs, isCW := cw }

/-- Result of a call to gc_execute_line: the returned status, the parser
state afterwards (the global gc_state), the validated block when STEP 3
completed (the global gc_block), and the coordinate slot written through
settings_write_coord_data by a G10. -/
structure GcResult where
  status : Status
  state : ParserState
  checked : Option Checked
  wroteCoord : Option (ℕ × GVec)

/-- STEP 4 of gc_execute_line (gcode.c:658-796): jog interception, then the
ordered commit of the block to gc_state.  The external motion calls
(mc_dwell, mc_line, mc_arc, the realtime executor) do not touch gc_state
and are not part of the result; settings_write_coord_data is recorded in
wroteCoord.  Note the non-OK return at gcode.c:786: an EEPROM read failure
during the M2/M30 program end returns STATUS_SETTING_READ_FAIL after
gc_state has already been rewritten. -/
def execute (s : ParserState) (env : Env) (jog : Bool) (c : Checked) :
    GcResult :=
  if jog then
    if c.command_words.any
        (fun g => !(g == ModalGroup.G3 || g == ModalGroup.G6 || g == ModalGroup.G0)) then
      ⟨Status.INVALID_JOG_COMMAND, s, some c, none⟩
    else if ¬(c.block.non_modal_command = NON_MODAL_ABSOLUTE_OVERRIDE ∨
              c.block.non_modal_command = NON_MODAL_NO_ACTION) then
      ⟨Status.INVALID_JOG_COMMAND, s, some c, none⟩
    else if env.jogStatus = Status.OK then
      ⟨Status.OK, { s with position := c.block.values.xyz }, some c, none⟩
    else ⟨env.jogStatus, s, some c, none⟩
  else
    let st := { s with line_number := c.block.values.n }
    let st := { st with modal.feed_rate := c.block.modal.feed_rate }
    let st := { st with feed_rate := c.block.values.f }
    let st := { st with modal.units := c.block.modal.units }
    let st := if st.modal.coord_select ≠ c.block.modal.coord_select then
        { st with modal.coord_select := c.block.modal.coord_select,
                  coord_system := c.block_coord_system }
      else st
    let st := { st with modal.distance := c.block.modal.distance }
    let wrote := if c.block.non_modal_command = NON_MODAL_SET_COORDINATE_DATA then
        some (c.coord_select, c.block.values.ijk) else none
    let st := if c.block.non_modal_command = NON_MODAL_SET_COORDINATE_DATA ∧
                 st.modal.coord_select = c.coord_select then
        { st with coord_system := c.block.values.ijk }
      else st
    let st := { st with modal.motion := c.block.modal.motion }
    let st := if st.modal.motion ≠ MOTION_MODE_NONE ∧
                 c.axis_command = AXIS_COMMAND_MOTION_MODE then
        { st with position := c.block.values.xyz }
      else st
    let st := { st with modal.program_flow := c.block.modal.program_flow }
    if st.modal.program_flow ≠ PROGRAM_FLOW_RUNNING then
      if st.modal.program_flow = PROGRAM_FLOW_PAUSED then
        ⟨Status.OK, { st with modal.program_flow := PROGRAM_FLOW_RUNNING }, some c, wrote⟩
      else
        let st := { st with modal.motion := MOTION_MODE_LINEAR, modal.distance := 0,
                            modal.feed_rate := 0, modal.coord_select := 0 }
        if ¬env.checkMode then
          match env.readCoord st.modal.coord_select with
          | none => ⟨Status.SETTING_READ_FAIL, st, some c, wrote⟩
          | some v =>
            let st := { st with coord_system := v }
            ⟨Status.OK, { st with modal.program_flow := PROGRAM_FLOW_RUNNING }, some c, wrote⟩
        else ⟨Status.OK, { st with modal.program_flow := PROGRAM_FLOW_RUNNING }, some c, wrote⟩
    else ⟨Status.OK, st, some c, wrote⟩

/-- The complete gc_execute_line (gcode.c:64-797): STEP 1/2 word ingestion,
STEP 3 error checking, STEP 4 commit.  jog tells whether the line began
with the already-parsed `$J=` prefix; a0/a1/al are the indeterminate
contents of the uninitialized locals axis_0/axis_1/axis_linear
(gcode.c:77); al flows only into the external mc_arc call and is otherwise
unread. -/
def gc_execute_line (s : ParserState) (env : Env) (jog : Bool)
    (a0 a1 _al : ℕ) (tokens : List Token) : GcResult :=
  match parseLoop (initAcc s jog) tokens with
  | Except.error e => ⟨e, s, none, none⟩
  | Except.ok acc =>
    match checkBlock s env jog a0 a1 acc with
    | Except.error e => ⟨e, s, none, none⟩
    | Except.ok c => execute s env jog c

/-- The hypot_f helper of nuts_bolts (exact, over the reals). -/
noncomputable def hypot_f (a b : ℝ) : ℝ := Real.sqrt (a ^ 2 + b ^ 2)

/-- Arc center computed by the radius-mode branch (gcode.c:578-614), over
the reals: h_x2_div_d = -sqrt(4r^2-x^2-y^2)/hypot_f(x,y), negated for a
counterclockwise arc and negated again for a negative R, then
center = (0.5*(x - y*h), 0.5*(y + x*h)). -/
noncomputable def radiusModeCenter (x y r : ℚ) (isCW : Bool) : ℝ × ℝ :=
  let hsq : ℝ := 4 * (r : ℝ) ^ 2 - (x : ℝ) ^ 2 - (y : ℝ) ^ 2
  let h0 : ℝ := -Real.sqrt hsq / hypot_f (x : ℝ) (y : ℝ)
  let h1 : ℝ := if isCW then h0 else -h0
  let h2 : ℝ := if r < 0 then -h1 else h1
  (0.5 * ((x : ℝ) - (y : ℝ) * h2), 0.5 * ((y : ℝ) + (x : ℝ) * h2))

/-- Parser state produced by gc_init (gcode.c:40-48): everything zeroed;
the G54 coordinate table entry read at boot is taken as zero here. -/
def initState : ParserState :=
  { modal := { motion := 0, feed_rate := 0, units := 0, distance := 0,
               coord_select := 0, program_flow := 0 },
    coord_system := GVec.zero, coord_offset := GVec.zero,
    position := GVec.zero, feed_rate := 0, line_number := 0 }

/-- Environment with an all-zero coordinate table, a successful jog
executor and check mode off. -/
def envZero : Env :=
  { readCoord := fun _ => some GVec.zero, jogStatus := Status.OK,
    checkMode := false }

/-- Environment whose EEPROM reads fail. -/
def envReadFail : Env :=
  { readCoord := fun _ => none, jogStatus := Status.OK, checkMode := false }

/-- Correctness of the rational decision procedure sqrtDiffGt: it decides
the real comparison sqrt T < |sqrt A - sqrt B| for nonnegative inputs,
which is how gcode.c compares delta_r (with T the square of the
threshold). -/
theorem sqrtDiffGt_iff (A B T : ℚ) (hA : 0 ≤ A) (hB : 0 ≤ B) (hT : 0 ≤ T) :
    sqrtDiffGt A B T = true ↔
      Real.sqrt (T : ℝ) < |Real.sqrt (A : ℝ) - Real.sqrt (B : ℝ)| := by
  have hA2 : (0 : ℝ) ≤ (A : ℝ) := by exact_mod_cast hA
  have hB2 : (0 : ℝ) ≤ (B : ℝ) := by exact_mod_cast hB
  have hT2 : (0 : ℝ) ≤ (T : ℝ) := by exact_mod_cast hT
  have hAB : (0 : ℝ) ≤ (A : ℝ) * B := mul_nonneg hA2 hB2
  have hs : Real.sqrt ((A : ℝ) * B) ^ 2 = (A : ℝ) * B := Real.sq_sqrt hAB
  have hsn : (0 : ℝ) ≤ Real.sqrt ((A : ℝ) * B) := Real.sqrt_nonneg _
  have hu : (Real.sqrt (A : ℝ) - Real.sqrt (B : ℝ)) ^ 2
      = (A : ℝ) + B - 2 * Real.sqrt ((A : ℝ) * B) := by
    have h1 : Real.sqrt (A : ℝ) ^ 2 = (A : ℝ) := Real.sq_sqrt hA2
    have h2 : Real.sqrt (B : ℝ) ^ 2 = (B : ℝ) := Real.sq_sqrt hB2
    have h3 : Real.sqrt ((A : ℝ) * B) = Real.sqrt (A : ℝ) * Real.sqrt (B : ℝ) :=
      Real.sqrt_mul hA2 _
    rw [h3]; nlinarith [h1, h2]
  have key1 : Real.sqrt (T : ℝ) < |Real.sqrt (A : ℝ) - Real.sqrt (B : ℝ)| ↔
      (T : ℝ) < (Real.sqrt (A : ℝ) - Real.sqrt (B : ℝ)) ^ 2 := by
    rw [← Real.sqrt_sq_eq_abs, Real.sqrt_lt_sqrt_iff hT2]
  have key2 : (T : ℝ) < (Real.sqrt (A : ℝ) - Real.sqrt (B : ℝ)) ^ 2 ↔
      ((0 : ℝ) < (A : ℝ) + B - T ∧ 4 * ((A : ℝ) * B) < ((A : ℝ) + B - T) ^ 2) := by
    rw [hu]
    constructor
    · intro h
      refine ⟨by nlinarith, by nlinarith⟩
    · rintro ⟨h1, h2⟩
      nlinarith
  rw [key1, key2]
  simp only [sqrtDiffGt, Bool.and_eq_true, decide_eq_true_eq]
  constructor
  · rintro ⟨h1, h2⟩
    have h2R : ((4 * A * B : ℚ) : ℝ) < (((A + B - T) ^ 2 : ℚ) : ℝ) := by exact_mod_cast h2
    push_cast at h2R
    refine ⟨by exact_mod_cast h1, by nlinarith [h2R]⟩
  · rintro ⟨h1, h2⟩
    have h2R : ((4 : ℝ) * A * B) < (((A : ℝ) + B - T)) ^ 2 := by nlinarith [h2]
    have h2Q : ((4 * A * B : ℚ) : ℝ) < (((A + B - T) ^ 2 : ℚ) : ℝ) := by
      push_cast; nlinarith [h2R]
    exact ⟨by exact_mod_cast h1, by exact_mod_cast h2Q⟩

/-- Case analysis of STEP 4: every return of the execution phase is either
STATUS_OK, the program-end EEPROM failure STATUS_SETTING_READ_FAIL of
gcode.c:786, or leaves gc_state untouched. -/
theorem execute_cases (s : ParserState) (env : Env) (jog : Bool) (c : Checked) :
    (execute s env jog c).status = Status.OK ∨
    (execute s env jog c).status = Status.SETTING_READ_FAIL ∨
    (execute s env jog c).state = s := by
  unfold execute
  repeat' (split <;> try simp)

/-- The G codes whose integer form marks the block as carrying an axis
command (gcode.c:144-165): G10/G28/G30/G92 and the motion codes. -/
def isAxisCommandCode (t : Token) : Bool :=
  t.letter = 'G' &&
    (([0, 1, 2, 3, 38.2, 38.3, 38.4, 38.5, 10, 28, 30, 92] : List ℚ).contains t.value)

/-- The recognized G and M codes partitioned into the modal groups gcode.c
assigns them to (word_bit in the STEP 2 switch): non-modal group G0, motion
group G1, distance G3, arc-distance G4, feed mode G5, units G6, cutter
compensation G7, coordinate select G12, control G13, program flow M4. -/
def modalGroupTokensTable : List (List Token) :=
  [ [⟨'G', 4⟩, ⟨'G', 10⟩, ⟨'G', 28⟩, ⟨'G', 28.1⟩, ⟨'G', 30⟩, ⟨'G', 30.1⟩,
     ⟨'G', 53⟩, ⟨'G', 92⟩, ⟨'G', 92.1⟩],
    [⟨'G', 0⟩, ⟨'G', 1⟩, ⟨'G', 2⟩, ⟨'G', 3⟩, ⟨'G', 38.2⟩, ⟨'G', 38.3⟩,
     ⟨'G', 38.4⟩, ⟨'G', 38.5⟩, ⟨'G', 80⟩],
    [⟨'G', 90⟩, ⟨'G', 91⟩],
    [⟨'G', 91.1⟩],
    [⟨'G', 93⟩, ⟨'G', 94⟩],
    [⟨'G', 20⟩, ⟨'G', 21⟩],
    [⟨'G', 40⟩],
    [⟨'G', 54⟩, ⟨'G', 55⟩, ⟨'G', 56⟩, ⟨'G', 57⟩, ⟨'G', 58⟩, ⟨'G', 59⟩],
    [⟨'G', 61⟩],
    [⟨'M', 0⟩, ⟨'M', 1⟩, ⟨'M', 2⟩, ⟨'M', 30⟩] ]

/-- The integer-form non-modal axis commands of C6. -/
def nonModalAxisGcodes : List ℚ := [10, 28, 30, 92]

/-- The motion commands of C6 (G38 only exists in its dotted forms). -/
def motionGcodes : List ℚ := [0, 1, 2, 3, 38.2, 38.3, 38.4, 38.5]

/-- The dotted set-variants exempt from the axis-command flag. -/
def dottedNonModalGcodes : List ℚ := [28.1, 30.1, 92.1]

/-- C1 (corrected).  Counterexample to the claim as stated: an M2 block
whose program-end coordinate reload fails in the EEPROM returns
STATUS_SETTING_READ_FAIL, which is not STATUS_OK, yet gc_state has already
been rewritten (gcode.c:773-786 run before the failing read returns at
gcode.c:786; among others line_number was set to 0 at gcode.c:680). -/
theorem c1_counterexample :
    (gc_execute_line { initState with line_number := 7 } envReadFail false 0 1 2
        [⟨'M', 2⟩]).status = Status.SETTING_READ_FAIL ∧
    (gc_execute_line { initState with line_number := 7 } envReadFail false 0 1 2
        [⟨'M', 2⟩]).status ≠ Status.OK ∧
    (gc_execute_line { initState with line_number := 7 } envReadFail false 0 1 2
        [⟨'M', 2⟩]).state ≠ { initState with line_number := 7 } := by
  refine ⟨by decide, by decide, by decide⟩

/-- C1 (amended).  Atomicity of the interpreter on failure: for every line,
every initial parser state, every environment and every content of the
uninitialized locals, a return status other than STATUS_OK and other than
STATUS_SETTING_READ_FAIL leaves the whole of gc_state (modal fields,
coord_system, coord_offset, position, feed_rate, line_number) exactly as it
was before the call.  (STATUS_SETTING_READ_FAIL must be excepted because of
the program-end path of c1_counterexample.) -/
theorem c1_atomicity (s : ParserState) (env : Env) (jog : Bool) (a0 a1 al : ℕ)
    (tokens : List Token)
    (h1 : (gc_execute_line s env jog a0 a1 al tokens).status ≠ Status.OK)
    (h2 : (gc_execute_line s env jog a0 a1 al tokens).status ≠ Status.SETTING_READ_FAIL) :
    (gc_execute_line s env jog a0 a1 al tokens).state = s := by
  unfold gc_execute_line at h1 h2 ⊢
  cases hp : parseLoop (initAcc s jog) tokens with
  | error e => simp [hp]
  | ok acc =>
    cases hc : checkBlock s env jog a0 a1 acc with
    | error e => simp [hp, hc]
    | ok c =>
      simp only [hp, hc] at h1 h2 ⊢
      rcases execute_cases s env jog c with h | h | h
      · exact absurd h h1
      · exact absurd h h2
      · exact h

/-- Witness for c1_atomicity: the unsupported command G99 is rejected and
the parser state is untouched. -/
theorem c1_atomicity_witness :
    (gc_execute_line initState envZero false 0 1 2 [⟨'G', 99⟩]).status ≠ Status.OK ∧
    (gc_execute_line initState envZero false 0 1 2 [⟨'G', 99⟩]).status ≠
      Status.SETTING_READ_FAIL ∧
    (gc_execute_line initState envZero false 0 1 2 [⟨'G', 99⟩]).state = initState :=
  ⟨by decide, by decide, c1_atomicity _ _ _ _ _ _ _ (by decide) (by decide)⟩

/-- C3 (corrected).  Counterexample to the claim as stated: G0 and G1 are
distinct codes of the same modal group (motion), yet the block G0G1 fails
with STATUS_GCODE_AXIS_COMMAND_CONFLICT (gcode.c:164), not with
STATUS_GCODE_MODAL_GROUP_VIOLATION: the axis-command conflict check runs
before the modal-group bit check. -/
theorem c3_counterexample :
    (gc_execute_line initState envZero false 0 1 2 [⟨'G', 0⟩, ⟨'G', 1⟩]).status =
      Status.GCODE_AXIS_COMMAND_CONFLICT ∧
    Status.GCODE_AXIS_COMMAND_CONFLICT ≠ Status.GCODE_MODAL_GROUP_VIOLATION := by
  refine ⟨by decide, by decide⟩

/-- C3 (amended).  Modal exclusivity: for every pair of distinct recognized
G/M codes of the same modal group, a block with both codes fails in either
order; the status is STATUS_GCODE_MODAL_GROUP_VIOLATION unless both codes
are integer-form axis commands (both motion codes, or both of
G10/G28/G30/G92), in which case the earlier axis-command conflict check
reports STATUS_GCODE_AXIS_COMMAND_CONFLICT instead. -/
theorem c3_modal_exclusivity (grp : List Token) (hg : grp ∈ modalGroupTokensTable)
    (a : Token) (ha : a ∈ grp) (b : Token) (hb : b ∈ grp) (hne : a ≠ b) :
    (gc_execute_line initState envZero false 0 1 2 [a, b]).status =
      (if isAxisCommandCode a && isAxisCommandCode b then
         Status.GCODE_AXIS_COMMAND_CONFLICT
       else Status.GCODE_MODAL_GROUP_VIOLATION) := by
  revert grp a b
  decide

/-- Witness for c3_modal_exclusivity at the pair G90/G91. -/
theorem c3_modal_exclusivity_witness :
    [(⟨'G', 90⟩ : Token), ⟨'G', 91⟩] ∈ modalGroupTokensTable ∧
    (gc_execute_line initState envZero false 0 1 2 [⟨'G', 90⟩, ⟨'G', 91⟩]).status =
      (if isAxisCommandCode ⟨'G', 90⟩ && isAxisCommandCode ⟨'G', 91⟩ then
         Status.GCODE_AXIS_COMMAND_CONFLICT
       else Status.GCODE_MODAL_GROUP_VIOLATION) :=
  ⟨by decide,
    c3_modal_exclusivity [⟨'G', 90⟩, ⟨'G', 91⟩] (by decide) ⟨'G', 90⟩ (by decide)
      ⟨'G', 91⟩ (by decide) (by decide)⟩

/-- C4 (code bug).  The locals axis_0/axis_1/axis_linear are declared at
gcode.c:77 and never assigned anywhere in the function, yet the arc path
reads them (gcode.c:519,523-524,613-614,625,742-743).  The claim (and the
spec note) require them to be assigned from the active plane before any
read.  Evaluating the same G2 block from the same state with two different
contents of the uninitialized locals yields two different statuses, so the
read of the unassigned indices is real and observable: with the G17
convention (0,1,2) the block is accepted, with junk (5,6,7) it is rejected
with STATUS_GCODE_NO_AXIS_WORDS_IN_PLANE. -/
theorem c4_uninitialized_axis_indices :
    (gc_execute_line initState envZero false 0 1 2
        [⟨'G', 2⟩, ⟨'X', 5⟩, ⟨'Y', 5⟩, ⟨'R', 5⟩, ⟨'F', 100⟩]).status = Status.OK ∧
    (gc_execute_line initState envZero false 5 6 7
        [⟨'G', 2⟩, ⟨'X', 5⟩, ⟨'Y', 5⟩, ⟨'R', 5⟩, ⟨'F', 100⟩]).status =
      Status.GCODE_NO_AXIS_WORDS_IN_PLANE := by
  refine ⟨by decide, by decide⟩

/-- C6 (confirmed).  Every block combining an integer-form G10/G28/G30/G92
with a motion command G0/G1/G2/G3/G38.x fails with
STATUS_GCODE_AXIS_COMMAND_CONFLICT in either order, while the dotted
variants G28.1/G30.1/G92.1 never produce that status. -/
theorem c6_axis_command_conflict :
    (∀ a ∈ nonModalAxisGcodes, ∀ b ∈ motionGcodes,
      (gc_execute_line initState envZero false 0 1 2
          [⟨'G', a⟩, ⟨'G', b⟩]).status = Status.GCODE_AXIS_COMMAND_CONFLICT ∧
      (gc_execute_line initState envZero false 0 1 2
          [⟨'G', b⟩, ⟨'G', a⟩]).status = Status.GCODE_AXIS_COMMAND_CONFLICT) ∧
    (∀ d ∈ dottedNonModalGcodes, ∀ b ∈ motionGcodes,
      (gc_execute_line initState envZero false 0 1 2
          [⟨'G', d⟩, ⟨'G', b⟩]).status ≠ Status.GCODE_AXIS_COMMAND_CONFLICT ∧
      (gc_execute_line initState envZero false 0 1 2
          [⟨'G', b⟩, ⟨'G', d⟩]).status ≠ Status.GCODE_AXIS_COMMAND_CONFLICT) := by
  refine ⟨by decide, by decide⟩

/-- C9 (corrected).  Counterexample to the claim as stated: the letter S is
not in the value-word switch of this build (no spindle), so a negative S
word fails with STATUS_GCODE_UNSUPPORTED_COMMAND (gcode.c:273), not with
STATUS_NEGATIVE_VALUE. -/
theorem c9_counterexample :
    (gc_execute_line initState envZero false 0 1 2 [⟨'S', -5⟩]).status =
      Status.GCODE_UNSUPPORTED_COMMAND ∧
    Status.GCODE_UNSUPPORTED_COMMAND ≠ Status.NEGATIVE_VALUE := by
  refine ⟨by decide, by decide⟩

/-- C9 (amended).  A negative F, N or P value word fails with
STATUS_NEGATIVE_VALUE; an S word always fails with
STATUS_GCODE_UNSUPPORTED_COMMAND whatever its sign; and a repeated value
word fails with STATUS_GCODE_WORD_REPEATED (shown for every supported value
letter). -/
theorem c9_value_word_checks :
    (∀ v : ℚ, v < 0 →
      (gc_execute_line initState envZero false 0 1 2 [⟨'F', v⟩]).status =
        Status.NEGATIVE_VALUE ∧
      (gc_execute_line initState envZero false 0 1 2 [⟨'N', v⟩]).status =
        Status.NEGATIVE_VALUE ∧
      (gc_execute_line initState envZero false 0 1 2 [⟨'P', v⟩]).status =
        Status.NEGATIVE_VALUE) ∧
    (∀ v : ℚ,
      (gc_execute_line initState envZero false 0 1 2 [⟨'S', v⟩]).status =
        Status.GCODE_UNSUPPORTED_COMMAND) ∧
    (∀ L ∈ (['F', 'I', 'J', 'L', 'N', 'P', 'R', 'X', 'Y'] : List Char),
      (gc_execute_line initState envZero false 0 1 2 [⟨L, 1⟩, ⟨L, 1⟩]).status =
        Status.GCODE_WORD_REPEATED) := by
  refine ⟨?_, ?_, by decide⟩
  · intro v hv
    refine ⟨?_, ?_, ?_⟩ <;>
      simp [gc_execute_line, parseLoop, processToken, valueTail, initAcc, initState, hv]
  · intro v
    simp [gc_execute_line, parseLoop, processToken, valueTail, initAcc, initState]

/-- Witness for c9_value_word_checks at F-1, S-1 and the repeated letter F. -/
theorem c9_value_word_checks_witness :
    ((-1 : ℚ) < 0 ∧
      (gc_execute_line initState envZero false 0 1 2 [⟨'F', -1⟩]).status =
        Status.NEGATIVE_VALUE) ∧
    'F' ∈ (['F', 'I', 'J', 'L', 'N', 'P', 'R', 'X', 'Y'] : List Char) ∧
    (gc_execute_line initState envZero false 0 1 2 [⟨'F', 1⟩, ⟨'F', 1⟩]).status =
      Status.GCODE_WORD_REPEATED :=
  ⟨⟨by decide, (c9_value_word_checks.1 (-1) (by decide)).1⟩, by decide,
    c9_value_word_checks.2.2 'F' (by decide)⟩

/-- C10 (confirmed).  A block whose N word has a nonnegative value (within
the int32 range of the C cast) passes the line-number check exactly when
the truncated value does not exceed MAX_LINE_NUMBER = 10,000,000; above the
limit it fails with STATUS_GCODE_INVALID_LINE_NUMBER. -/
theorem c10_line_number_limit (v : ℚ) (hv : 0 ≤ v) (hr : ratTrunc v < 2 ^ 31) :
    (gc_execute_line initState envZero false 0 1 2 [⟨'N', v⟩]).status =
      (if MAX_LINE_NUMBER < ratTrunc v then Status.GCODE_INVALID_LINE_NUMBER
       else Status.OK) := by
  have hv2 : ¬ v < 0 := not_lt.mpr hv
  by_cases hn : (10000000 : ℤ) < ratTrunc v <;>
    simp [gc_execute_line, parseLoop, processToken, valueTail, initAcc, initState,
      checkBlock, check0, checkLineNumber, checkFeed, checkDwell, loadCoordSys,
      checkNonModal, checkMotion, checkUnused, execute, envZero, wClear, hv2, hn]

/-- Witness for c10_line_number_limit at the boundary values 10000000
(accepted) and 10000001 (rejected). -/
theorem c10_line_number_limit_witness :
    ((0 : ℚ) ≤ 10000000 ∧ ratTrunc 10000000 < 2 ^ 31 ∧
      (gc_execute_line initState envZero false 0 1 2 [⟨'N', 10000000⟩]).status =
        (if MAX_LINE_NUMBER < ratTrunc 10000000 then Status.GCODE_INVALID_LINE_NUMBER
         else Status.OK)) ∧
    ((0 : ℚ) ≤ 10000001 ∧
      (gc_execute_line initState envZero false 0 1 2 [⟨'N', 10000001⟩]).status =
        (if MAX_LINE_NUMBER < ratTrunc 10000001 then Status.GCODE_INVALID_LINE_NUMBER
         else Status.OK)) :=
  ⟨⟨by decide, by decide, c10_line_number_limit 10000000 (by decide) (by decide)⟩,
    ⟨by decide, c10_line_number_limit 10000001 (by decide) (by decide)⟩⟩

/-- Preservation facts for gBodyNonModal: it touches only the non-modal
command field. -/
theorem gBodyNonModal_inv (acc : ParseAcc) (iv m : ℕ) (acc2 : ParseAcc)
    (grp : ModalGroup) (m2 : ℕ)
    (h : gBodyNonModal acc iv m = Except.ok (acc2, grp, m2)) :
    acc2.block.values = acc.block.values ∧
    acc2.value_words = acc.value_words ∧
    acc2.block.modal = acc.block.modal := by
  unfold gBodyNonModal at h
  split_ifs at h <;>
    first
      | exact (Except.noConfusion h)
      | (injection h with hx
         injection hx with h5 h67
         subst h5
         exact ⟨rfl, rfl, rfl⟩)

/-- Preservation facts for gBodyMotion: it touches only the motion mode. -/
theorem gBodyMotion_inv (acc : ParseAcc) (iv m : ℕ) (acc2 : ParseAcc)
    (grp : ModalGroup) (m2 : ℕ)
    (h : gBodyMotion acc iv m = Except.ok (acc2, grp, m2)) :
    acc2.block.values = acc.block.values ∧
    acc2.value_words = acc.value_words ∧
    acc2.block.modal.feed_rate = acc.block.modal.feed_rate := by
  unfold gBodyMotion at h
  split_ifs at h <;>
    first
      | exact (Except.noConfusion h)
      | (injection h with hx
         injection hx with h5 h67
         subst h5
         exact ⟨rfl, rfl, rfl⟩)

/-- Unfolding equation for gDispatch, stated once so that proofs can
rewrite with it cheaply. -/
theorem gDispatch_eq (acc : ParseAcc) (iv m : ℕ) :
    gDispatch acc iv m =
      (if iv = 10 ∨ iv = 28 ∨ iv = 30 ∨ iv = 92 then
        if m = 0 then
          if acc.axis_command ≠ 0 then Except.error Status.GCODE_AXIS_COMMAND_CONFLICT
          else gBodyNonModal { acc with axis_command := AXIS_COMMAND_NON_MODAL } iv m
        else gBodyNonModal acc iv m
      else if iv = 4 ∨ iv = 53 then
        gBodyNonModal acc iv m
      else if iv = 0 ∨ iv = 1 ∨ iv = 2 ∨ iv = 3 ∨ iv = 38 then
        if acc.axis_command ≠ 0 then Except.error Status.GCODE_AXIS_COMMAND_CONFLICT
        else gBodyMotion { acc with axis_command := AXIS_COMMAND_MOTION_MODE } iv m
      else if iv = 80 then
        gBodyMotion acc iv m
      else if iv = 90 ∨ iv = 91 then
        if m = 0 then
          Except.ok ({ acc with block.modal.distance := iv - 90 }, ModalGroup.G3, 0)
        else
          if m ≠ 10 ∨ iv = 90 then Except.error Status.GCODE_UNSUPPORTED_COMMAND
          else Except.ok (acc, ModalGroup.G4, 0)
      else if iv = 93 ∨ iv = 94 then
        Except.ok ({ acc with block.modal.feed_rate := 94 - iv }, ModalGroup.G5, m)
      else if iv = 20 ∨ iv = 21 then
        Except.ok ({ acc with block.modal.units := 21 - iv }, ModalGroup.G6, m)
      else if iv = 40 then
        Except.ok (acc, ModalGroup.G7, m)
      else if 54 ≤ iv ∧ iv ≤ 59 then
        Except.ok ({ acc with block.modal.coord_select := iv - 54 }, ModalGroup.G12, m)
      else if iv = 61 then
        if m ≠ 0 then Except.error Status.GCODE_UNSUPPORTED_COMMAND
        else Except.ok (acc, ModalGroup.G13, 0)
      else Except.error Status.GCODE_UNSUPPORTED_COMMAND) := rfl

/-- Feed-relevant invariant of the G command dispatch: no G command other
than G93 writes the feed rate value, the value words, or a nonzero feed
rate mode. -/
theorem gDispatch_feed_inv (acc : ParseAcc) (iv m : ℕ) (acc2 : ParseAcc)
    (grp : ModalGroup) (m2 : ℕ)
    (h : gDispatch acc iv m = Except.ok (acc2, grp, m2)) (h93 : iv ≠ 93) :
    acc2.block.values.f = acc.block.values.f ∧
    acc2.value_words = acc.value_words ∧
    (acc.block.modal.feed_rate = 0 → acc2.block.modal.feed_rate = 0) := by
  rw [gDispatch_eq] at h
  by_cases c1 : iv = 10 ∨ iv = 28 ∨ iv = 30 ∨ iv = 92
  · rw [if_pos c1] at h
    by_cases c2 : m = 0
    · rw [if_pos c2] at h
      by_cases c3 : acc.axis_command ≠ 0
      · rw [if_pos c3] at h; exact (Except.noConfusion h)
      · rw [if_neg c3] at h
        obtain ⟨v1, v2, v3⟩ := gBodyNonModal_inv _ _ _ _ _ _ h
        exact ⟨by rw [v1], v2, fun hf => by rw [v3]; exact hf⟩
    · rw [if_neg c2] at h
      obtain ⟨v1, v2, v3⟩ := gBodyNonModal_inv _ _ _ _ _ _ h
      exact ⟨by rw [v1], v2, fun hf => by rw [v3]; exact hf⟩
  · rw [if_neg c1] at h
    by_cases c4 : iv = 4 ∨ iv = 53
    · rw [if_pos c4] at h
      obtain ⟨v1, v2, v3⟩ := gBodyNonModal_inv _ _ _ _ _ _ h
      exact ⟨by rw [v1], v2, fun hf => by rw [v3]; exact hf⟩
    · rw [if_neg c4] at h
      by_cases c5 : iv = 0 ∨ iv = 1 ∨ iv = 2 ∨ iv = 3 ∨ iv = 38
      · rw [if_pos c5] at h
        by_cases c6 : acc.axis_command ≠ 0
        · rw [if_pos c6] at h; exact (Except.noConfusion h)
        · rw [if_neg c6] at h
          obtain ⟨v1, v2, v3⟩ := gBodyMotion_inv _ _ _ _ _ _ h
          exact ⟨by rw [v1], v2, fun hf => by rw [v3]; exact hf⟩
      · rw [if_neg c5] at h
        by_cases c7 : iv = 80
        · rw [if_pos c7] at h
          obtain ⟨v1, v2, v3⟩ := gBodyMotion_inv _ _ _ _ _ _ h
          exact ⟨by rw [v1], v2, fun hf => by rw [v3]; exact hf⟩
        · rw [if_neg c7] at h
          by_cases c8 : iv = 90 ∨ iv = 91
          · rw [if_pos c8] at h
            by_cases c9 : m = 0
            · rw [if_pos c9] at h
              injection h with hx
              injection hx with h5 h67
              subst h5
              exact ⟨rfl, rfl, fun hf => hf⟩
            · rw [if_neg c9] at h
              by_cases c10 : m ≠ 10 ∨ iv = 90
              · rw [if_pos c10] at h; exact (Except.noConfusion h)
              · rw [if_neg c10] at h
                injection h with hx
                injection hx with h5 h67
                subst h5
                exact ⟨rfl, rfl, fun hf => hf⟩
          · rw [if_neg c8] at h
            by_cases c11 : iv = 93 ∨ iv = 94
            · rw [if_pos c11] at h
              injection h with hx
              injection hx with h5 h67
              subst h5
              refine ⟨rfl, rfl, fun hf => ?_⟩
              have h94 : iv = 94 := by
                rcases c11 with hx94 | hx94
                · exact absurd hx94 h93
                · exact hx94
              subst h94
              rfl
            · rw [if_neg c11] at h
              by_cases c12 : iv = 20 ∨ iv = 21
              · rw [if_pos c12] at h
                injection h with hx
                injection hx with h5 h67
                subst h5
                exact ⟨rfl, rfl, fun hf => hf⟩
              · rw [if_neg c12] at h
                by_cases c13 : iv = 40
                · rw [if_pos c13] at h
                  injection h with hx
                  injection hx with h5 h67
                  subst h5
                  exact ⟨rfl, rfl, fun hf => hf⟩
                · rw [if_neg c13] at h
                  by_cases c14 : 54 ≤ iv ∧ iv ≤ 59
                  · rw [if_pos c14] at h
                    injection h with hx
                    injection hx with h5 h67
                    subst h5
                    exact ⟨rfl, rfl, fun hf => hf⟩
                  · rw [if_neg c14] at h
                    by_cases c15 : iv = 61
                    · rw [if_pos c15] at h
                      by_cases c16 : m ≠ 0
                      · rw [if_pos c16] at h; exact (Except.noConfusion h)
                      · rw [if_neg c16] at h
                        injection h with hx
                        injection hx with h5 h67
                        subst h5
                        exact ⟨rfl, rfl, fun hf => hf⟩
                    · rw [if_neg c15] at h; exact (Except.noConfusion h)

/-- Characterization of a successful commandTail. -/
theorem commandTail_inv (acc : ParseAcc) (grp : ModalGroup) (m : ℕ) (acc2 : ParseAcc)
    (h : commandTail (acc, grp, m) = Except.ok acc2) :
    acc2 = { acc with command_words := grp :: acc.command_words } := by
  simp only [commandTail] at h
  split_ifs at h <;>
    first
      | exact (Except.noConfusion h)
      | (injection h with h5; exact h5.symm)

/-- Preservation facts for the M command dispatch: it touches only the
program flow and the command words. -/
theorem mDispatch_inv (acc : ParseAcc) (iv m : ℕ) (acc2 : ParseAcc)
    (h : mDispatch acc iv m = Except.ok acc2) :
    acc2.block.values = acc.block.values ∧
    acc2.value_words = acc.value_words ∧
    acc2.block.modal.feed_rate = acc.block.modal.feed_rate := by
  unfold mDispatch at h
  split_ifs at h <;>
    first
      | exact (Except.noConfusion h)
      | (have h5 := commandTail_inv _ _ _ _ h
         subst h5
         exact ⟨rfl, rfl, rfl⟩)

/-- Characterization of a successful valueTail. -/
theorem valueTail_inv (acc : ParseAcc) (w : Word) (v : ℚ) (acc2 : ParseAcc)
    (h : valueTail acc w v = Except.ok acc2) :
    acc2 = { acc with value_words := w :: acc.value_words } := by
  unfold valueTail at h
  split_ifs at h <;>
    first
      | exact (Except.noConfusion h)
      | (injection h with h5; exact h5.symm)

/-- Unfolding equation for processToken. -/
theorem processToken_eq (acc : ParseAcc) (t : Token) :
    processToken acc t =
      (if t.letter < 'A' ∨ 'Z' < t.letter then Except.error Status.EXPECTED_COMMAND_LETTER
      else if t.letter = 'G' then
        match gDispatch acc (intVal8 t.value) (mant16 t.value) with
        | Except.error e => Except.error e
        | Except.ok res => commandTail res
      else if t.letter = 'M' then
        mDispatch acc (intVal8 t.value) (mant16 t.value)
      else if t.letter = 'F' then
        valueTail { acc with block.values.f := t.value } Word.F t.value
      else if t.letter = 'I' then
        valueTail { acc with block.values.ijk.x := t.value,
                             ijk_words := acc.ijk_words ||| bitMask 0 } Word.I t.value
      else if t.letter = 'J' then
        valueTail { acc with block.values.ijk.y := t.value,
                             ijk_words := acc.ijk_words ||| bitMask 1 } Word.J t.value
      else if t.letter = 'L' then
        valueTail { acc with block.values.l := intVal8 t.value } Word.L t.value
      else if t.letter = 'N' then
        valueTail { acc with block.values.n := ratTrunc t.value } Word.N t.value
      else if t.letter = 'P' then
        valueTail { acc with block.values.p := t.value } Word.P t.value
      else if t.letter = 'R' then
        valueTail { acc with block.values.r := t.value } Word.R t.value
      else if t.letter = 'X' then
        valueTail { acc with block.values.xyz.x := t.value,
                             axis_words := acc.axis_words ||| bitMask 0 } Word.X t.value
      else if t.letter = 'Y' then
        valueTail { acc with block.values.xyz.y := t.value,
                             axis_words := acc.axis_words ||| bitMask 1 } Word.Y t.value
      else Except.error Status.GCODE_UNSUPPORTED_COMMAND) := rfl

/-- Feed-relevant invariant of one word-ingestion step: a word that is not
F and not G93 leaves the feed value untouched, does not add F to the value
words, and keeps the feed-rate mode at G94. -/
theorem processToken_feed_inv (acc : ParseAcc) (t : Token) (acc2 : ParseAcc)
    (h : processToken acc t = Except.ok acc2)
    (hF : t.letter ≠ 'F')
    (hG93 : ¬(t.letter = 'G' ∧ intVal8 t.value = 93)) :
    acc2.block.values.f = acc.block.values.f ∧
    (Word.F ∈ acc2.value_words ↔ Word.F ∈ acc.value_words) ∧
    (acc.block.modal.feed_rate = 0 → acc2.block.modal.feed_rate = 0) := by
  rw [processToken_eq] at h
  by_cases c0 : t.letter < 'A' ∨ 'Z' < t.letter
  · rw [if_pos c0] at h; exact (Except.noConfusion h)
  · rw [if_neg c0] at h
    by_cases cG : t.letter = 'G'
    · rw [if_pos cG] at h
      cases hg : gDispatch acc (intVal8 t.value) (mant16 t.value) with
      | error e => rw [hg] at h; exact (Except.noConfusion h)
      | ok res =>
        obtain ⟨accX, grpX, mX⟩ := res
        rw [hg] at h
        have h93 : intVal8 t.value ≠ 93 := fun hx => hG93 ⟨cG, hx⟩
        obtain ⟨v1, v2, v3⟩ := gDispatch_feed_inv _ _ _ _ _ _ hg h93
        have h5 := commandTail_inv _ _ _ _ h
        subst h5
        exact ⟨v1, by simp [v2], v3⟩
    · rw [if_neg cG] at h
      by_cases cM : t.letter = 'M'
      · rw [if_pos cM] at h
        obtain ⟨v1, v2, v3⟩ := mDispatch_inv _ _ _ _ h
        exact ⟨by rw [v1], by rw [v2], fun hf => by rw [v3]; exact hf⟩
      · rw [if_neg cM, if_neg hF] at h
        by_cases cI : t.letter = 'I'
        · rw [if_pos cI] at h
          have h5 := valueTail_inv _ _ _ _ h
          subst h5
          refine ⟨rfl, by simp, fun hf => hf⟩
        · rw [if_neg cI] at h
          by_cases cJ : t.letter = 'J'
          · rw [if_pos cJ] at h
            have h5 := valueTail_inv _ _ _ _ h
            subst h5
            refine ⟨rfl, by simp, fun hf => hf⟩
          · rw [if_neg cJ] at h
            by_cases cL : t.letter = 'L'
            · rw [if_pos cL] at h
              have h5 := valueTail_inv _ _ _ _ h
              subst h5
              refine ⟨rfl, by simp, fun hf => hf⟩
            · rw [if_neg cL] at h
              by_cases cN : t.letter = 'N'
              · rw [if_pos cN] at h
                have h5 := valueTail_inv _ _ _ _ h
                subst h5
                refine ⟨rfl, by simp, fun hf => hf⟩
              · rw [if_neg cN] at h
                by_cases cP : t.letter = 'P'
                · rw [if_pos cP] at h
                  have h5 := valueTail_inv _ _ _ _ h
                  subst h5
                  refine ⟨rfl, by simp, fun hf => hf⟩
                · rw [if_neg cP] at h
                  by_cases cR : t.letter = 'R'
                  · rw [if_pos cR] at h
                    have h5 := valueTail_inv _ _ _ _ h
                    subst h5
                    refine ⟨rfl, by simp, fun hf => hf⟩
                  · rw [if_neg cR] at h
                    by_cases cX : t.letter = 'X'
                    · rw [if_pos cX] at h
                      have h5 := valueTail_inv _ _ _ _ h
                      subst h5
                      refine ⟨rfl, by simp, fun hf => hf⟩
                    · rw [if_neg cX] at h
                      by_cases cY : t.letter = 'Y'
                      · rw [if_pos cY] at h
                        have h5 := valueTail_inv _ _ _ _ h
                        subst h5
                        refine ⟨rfl, by simp, fun hf => hf⟩
                      · rw [if_neg cY] at h; exact (Except.noConfusion h)

/-- Feed-relevant invariant of the whole STEP 2 loop over a line without F
words and without G93. -/
theorem parseLoop_feed_inv (tokens : List Token) (acc acc2 : ParseAcc)
    (h : parseLoop acc tokens = Except.ok acc2)
    (hT : ∀ t ∈ tokens, t.letter ≠ 'F' ∧ ¬(t.letter = 'G' ∧ intVal8 t.value = 93)) :
    acc2.block.values.f = acc.block.values.f ∧
    (Word.F ∈ acc2.value_words ↔ Word.F ∈ acc.value_words) ∧
    (acc.block.modal.feed_rate = 0 → acc2.block.modal.feed_rate = 0) := by
  induction tokens generalizing acc with
  | nil =>
    simp only [parseLoop] at h
    injection h with h5
    subst h5
    exact ⟨rfl, Iff.rfl, fun hf => hf⟩
  | cons t ts ih =>
    simp only [parseLoop] at h
    cases hp : processToken acc t with
    | error e => rw [hp] at h; exact (Except.noConfusion h)
    | ok accm =>
      rw [hp] at h
      obtain ⟨f1, f2, f3⟩ :=
        processToken_feed_inv _ _ _ hp (hT t (by simp)).1 (hT t (by simp)).2
      obtain ⟨g1, g2, g3⟩ := ih accm h (fun u hu => hT u (by simp [hu]))
      exact ⟨g1.trans f1, g2.trans f2, fun hf => g3 (f3 hf)⟩

/-- check0 touches only the axis command. -/
theorem check0_inv (acc : ParseAcc) :
    (check0 acc).block = acc.block ∧ (check0 acc).value_words = acc.value_words := by
  unfold check0
  split_ifs <;> exact ⟨rfl, rfl⟩

/-- A successful line-number check returns the scratch unchanged. -/
theorem checkLineNumber_inv (acc acc2 : ParseAcc)
    (h : checkLineNumber acc = Except.ok acc2) : acc2 = acc := by
  unfold checkLineNumber at h
  split_ifs at h <;>
    first
      | exact (Except.noConfusion h)
      | (injection h with h5; exact h5.symm)

/-- The sticky branch of the feed-rate check (gcode.c:365-372): a non-jog
G94 block from a G94 state without an F word takes the feed rate of the
previous state. -/
theorem checkFeed_sticky (s : ParserState) (acc acc2 : ParseAcc)
    (hsm : s.modal.feed_rate = 0) (hbm : acc.block.modal.feed_rate = 0)
    (hFw : Word.F ∉ acc.value_words)
    (h : checkFeed s false acc = Except.ok acc2) :
    acc2 = { acc with block.values.f := s.feed_rate } := by
  unfold checkFeed at h
  simp only [Bool.false_eq_true, if_false, hbm, hsm, hFw] at h
  norm_num at h
  exact h.symm

/-- checkDwell leaves the block unchanged. -/
theorem checkDwell_inv (acc acc2 : ParseAcc) (h : checkDwell acc = Except.ok acc2) :
    acc2.block = acc.block := by
  unfold checkDwell at h
  split_ifs at h <;>
    first
      | exact (Except.noConfusion h)
      | (injection h with h5; subst h5; rfl)

/-- checkNonModal never writes the feed value (it touches ijk and xyz). -/
theorem checkNonModal_f (s : ParserState) (env : Env) (bcs : GVec)
    (acc : ParseAcc) (acc2 : ParseAcc) (cs : ℕ)
    (h : checkNonModal s env bcs acc = Except.ok (acc2, cs)) :
    acc2.block.values.f = acc.block.values.f := by
  simp only [checkNonModal] at h
  split_ifs at h <;>
    first
      | exact (Except.noConfusion h)
      | (injection h with hx; injection hx with h5 h6; subst h5; rfl)
      | (split at h <;>
          first
            | exact (Except.noConfusion h)
            | (injection h with hx; injection hx with h5 h6; subst h5; rfl))

/-- checkArc never writes the feed value (it touches r and the value
words). -/
theorem checkArc_f (s : ParserState) (a0 a1 : ℕ) (cw : Bool) (acc : ParseAcc)
    (acc2 : ParseAcc) (cw2 : Bool)
    (h : checkArc s a0 a1 cw acc = Except.ok (acc2, cw2)) :
    acc2.block.values.f = acc.block.values.f := by
  simp only [checkArc] at h
  split_ifs at h <;>
    first
      | exact (Except.noConfusion h)
      | (injection h with hx; injection hx with h5 h6; subst h5; rfl)

/-- checkMotion never writes the feed value. -/
theorem checkMotion_f (s : ParserState) (a0 a1 : ℕ) (acc : ParseAcc)
    (acc2 : ParseAcc) (cw : Bool)
    (h : checkMotion s a0 a1 acc = Except.ok (acc2, cw)) :
    acc2.block.values.f = acc.block.values.f := by
  unfold checkMotion at h
  split_ifs at h <;>
    first
      | exact (Except.noConfusion h)
      | exact checkArc_f _ _ _ _ _ _ _ h
      | (injection h with hx; injection hx with h5 h6; subst h5; rfl)

/-- checkUnused leaves the block unchanged. -/
theorem checkUnused_inv (jog : Bool) (acc acc2 : ParseAcc)
    (h : checkUnused jog acc = Except.ok acc2) :
    acc2.block = acc.block := by
  simp only [checkUnused] at h
  split_ifs at h <;>
    first
      | exact (Except.noConfusion h)
      | (injection h with h5; subst h5; rfl)

/-- Every non-jog execution commits the block feed value to
gc_state.feed_rate (gcode.c:692). -/
theorem execute_feed (s : ParserState) (env : Env) (c : Checked) :
    (execute s env false c).state.feed_rate = c.block.values.f := by
  unfold execute
  repeat' (split <;> try simp)
  all_goals simp_all

/-- Numeric evaluation facts for small command numbers. -/
theorem intVal8_one : intVal8 1 = 1 := by decide

/-- Numeric evaluation for G2. -/
theorem intVal8_two : intVal8 2 = 2 := by decide

/-- Numeric evaluation for G3. -/
theorem intVal8_three : intVal8 3 = 3 := by decide

/-- Mantissa of an integer command is zero. -/
theorem mant16_one : mant16 1 = 0 := by decide

/-- Mantissa of an integer command is zero. -/
theorem mant16_two : mant16 2 = 0 := by decide

/-- Mantissa of an integer command is zero. -/
theorem mant16_three : mant16 3 = 0 := by decide

/-- Feed value committed by a successful STEP 3 run started from a G94
state on a block that is still G94 and carries no F word: the previous
state feed rate. -/
theorem checkBlock_feed (s : ParserState) (env : Env) (a0 a1 : ℕ)
    (acc : ParseAcc) (c : Checked)
    (hsm : s.modal.feed_rate = 0)
    (hbm : acc.block.modal.feed_rate = 0)
    (hFw : Word.F ∉ acc.value_words)
    (hc : checkBlock s env false a0 a1 acc = Except.ok c) :
    c.block.values.f = s.feed_rate := by
  simp only [checkBlock] at hc
  cases h1 : checkLineNumber (check0 acc) with
  | error e => rw [h1] at hc; exact (Except.noConfusion hc)
  | ok acc1 =>
  simp only [h1] at hc
  have e1 : acc1 = check0 acc := checkLineNumber_inv _ _ h1
  have hb1 : acc1.block = acc.block := by rw [e1]; exact (check0_inv acc).1
  have hv1 : acc1.value_words = acc.value_words := by rw [e1]; exact (check0_inv acc).2
  cases h2 : checkFeed s false acc1 with
  | error e => rw [h2] at hc; exact (Except.noConfusion hc)
  | ok acc2 =>
  simp only [h2] at hc
  have e2 : acc2 = { acc1 with block.values.f := s.feed_rate } :=
    checkFeed_sticky s acc1 acc2 hsm (by rw [hb1]; exact hbm) (by rw [hv1]; exact hFw) h2
  have hf2 : acc2.block.values.f = s.feed_rate := by rw [e2]
  cases h3 : checkDwell acc2 with
  | error e => rw [h3] at hc; exact (Except.noConfusion hc)
  | ok acc3 =>
  simp only [h3] at hc
  have hf3 : acc3.block.values.f = s.feed_rate := by
    rw [checkDwell_inv _ _ h3]; exact hf2
  cases h4 : loadCoordSys s env acc3 with
  | error e => rw [h4] at hc; exact (Except.noConfusion hc)
  | ok bcs =>
  simp only [h4] at hc
  cases h5 : checkNonModal s env bcs acc3 with
  | error e => rw [h5] at hc; exact (Except.noConfusion hc)
  | ok p5 =>
  obtain ⟨acc4, cs⟩ := p5
  simp only [h5] at hc
  have hf4 : acc4.block.values.f = s.feed_rate := by
    rw [checkNonModal_f _ _ _ _ _ _ h5]; exact hf3
  cases h6 : checkMotion s a0 a1 acc4 with
  | error e => rw [h6] at hc; exact (Except.noConfusion hc)
  | ok p6 =>
  obtain ⟨acc5, cw⟩ := p6
  simp only [h6] at hc
  have hf5 : acc5.block.values.f = s.feed_rate := by
    rw [checkMotion_f _ _ _ _ _ _ h6]; exact hf4
  cases h7 : checkUnused false acc5 with
  | error e => rw [h7] at hc; exact (Except.noConfusion hc)
  | ok acc6 =>
  simp only [h7] at hc
  have hf6 : acc6.block.values.f = s.feed_rate := by
    rw [checkUnused_inv _ _ _ h7]; exact hf5
  injection hc with h8
  rw [← h8]
  exact hf6

/-- G94 feed-rate stickiness across a whole call: a non-jog line without F
words and without G93, interpreted from a G94 state, leaves
gc_state.feed_rate exactly as it was (on failure because gc_state is not
touched, on success because the sticky branch pushes the last value). -/
theorem gcFeedSticky (s : ParserState) (env : Env) (a0 a1 al : ℕ)
    (tokens : List Token)
    (hsm : s.modal.feed_rate = 0)
    (hT : ∀ t ∈ tokens, t.letter ≠ 'F' ∧ ¬(t.letter = 'G' ∧ intVal8 t.value = 93)) :
    (gc_execute_line s env false a0 a1 al tokens).state.feed_rate = s.feed_rate := by
  unfold gc_execute_line
  cases hp : parseLoop (initAcc s false) tokens with
  | error e => rfl
  | ok acc =>
    cases hcb : checkBlock s env false a0 a1 acc with
    | error e => simp [hp, hcb]
    | ok c =>
      simp only [hp, hcb]
      obtain ⟨f1, f2, f3⟩ := parseLoop_feed_inv tokens _ _ hp hT
      have hbm : acc.block.modal.feed_rate = 0 := by
        apply f3
        show (initAcc s false).block.modal.feed_rate = 0
        simp [initAcc, hsm]
      have hFw : Word.F ∉ acc.value_words := by
        intro hmem
        have := f2.mp hmem
        simp [initAcc] at this
      have := checkBlock_feed s env a0 a1 acc c hsm hbm hFw hcb
      rw [execute_feed, this]

/-- An explicit G1 block without F from a zero-feed G94 state is rejected
with the undefined-feed-rate status. -/
theorem gcZeroFeedLinear (s : ParserState) (env : Env) (a0 a1 al : ℕ) (x : ℚ)
    (hsm : s.modal.feed_rate = 0) (hsf : s.feed_rate = 0) :
    (gc_execute_line s env false a0 a1 al [⟨'G', 1⟩, ⟨'X', x⟩]).status =
      Status.GCODE_UNDEFINED_FEED_RATE := by
  simp [gc_execute_line, parseLoop, processToken, gDispatch, gBodyMotion, commandTail,
    valueTail, initAcc, checkBlock, check0, checkLineNumber, checkFeed, checkDwell,
    loadCoordSys, checkNonModal, checkMotion, checkArc, checkUnused, execute, wClear,
    bitMask, intVal8_one, mant16_one, hsm, hsf]

/-- The same rejection for explicit G2 and G3 blocks (the feed check runs
before any arc geometry). -/
theorem gcZeroFeedArcs (s : ParserState) (env : Env) (a0 a1 al : ℕ) (x : ℚ)
    (hsm : s.modal.feed_rate = 0) (hsf : s.feed_rate = 0) :
    (gc_execute_line s env false a0 a1 al [⟨'G', 2⟩, ⟨'X', x⟩]).status =
      Status.GCODE_UNDEFINED_FEED_RATE ∧
    (gc_execute_line s env false a0 a1 al [⟨'G', 3⟩, ⟨'X', x⟩]).status =
      Status.GCODE_UNDEFINED_FEED_RATE := by
  constructor <;>
  simp [gc_execute_line, parseLoop, processToken, gDispatch, gBodyMotion, commandTail,
    valueTail, initAcc, checkBlock, check0, checkLineNumber, checkFeed, checkDwell,
    loadCoordSys, checkNonModal, checkMotion, checkArc, checkUnused, execute, wClear,
    bitMask, intVal8_two, intVal8_three, mant16_two, mant16_three, hsm, hsf]

/-- C5 (confirmed).  Feed-rate stickiness and undefined-feed rejection:
in G94 with the previous state also G94 and no F word in the line, the
feed rate of the previous state is kept; an explicit G1/G2/G3 block from a
zero-feed G94 state fails with STATUS_GCODE_UNDEFINED_FEED_RATE; a G0
block needs no feed rate; and the literal two-line scenario G0X1Y1 then
G1X2 from the boot state gives OK (position (1,1)) then
UNDEFINED_FEED_RATE. -/
theorem c5_feed_rate_rules :
    (∀ (s : ParserState) (env : Env) (a0 a1 al : ℕ) (tokens : List Token),
      s.modal.feed_rate = 0 →
      (∀ t ∈ tokens, t.letter ≠ 'F' ∧ ¬(t.letter = 'G' ∧ intVal8 t.value = 93)) →
      (gc_execute_line s env false a0 a1 al tokens).state.feed_rate = s.feed_rate) ∧
    (∀ (s : ParserState) (env : Env) (a0 a1 al : ℕ) (x : ℚ),
      s.modal.feed_rate = 0 → s.feed_rate = 0 →
      (gc_execute_line s env false a0 a1 al [⟨'G', 1⟩, ⟨'X', x⟩]).status =
        Status.GCODE_UNDEFINED_FEED_RATE ∧
      (gc_execute_line s env false a0 a1 al [⟨'G', 2⟩, ⟨'X', x⟩]).status =
        Status.GCODE_UNDEFINED_FEED_RATE ∧
      (gc_execute_line s env false a0 a1 al [⟨'G', 3⟩, ⟨'X', x⟩]).status =
        Status.GCODE_UNDEFINED_FEED_RATE) ∧
    ((gc_execute_line initState envZero false 0 1 2
        [⟨'G', 0⟩, ⟨'X', 1⟩, ⟨'Y', 1⟩]).status = Status.OK ∧
      (gc_execute_line initState envZero false 0 1 2
        [⟨'G', 0⟩, ⟨'X', 1⟩, ⟨'Y', 1⟩]).state.position = ⟨1, 1⟩ ∧
      (gc_execute_line
          (gc_execute_line initState envZero false 0 1 2
            [⟨'G', 0⟩, ⟨'X', 1⟩, ⟨'Y', 1⟩]).state
          envZero false 0 1 2 [⟨'G', 1⟩, ⟨'X', 2⟩]).status =
        Status.GCODE_UNDEFINED_FEED_RATE) := by
  refine ⟨fun s env a0 a1 al tokens hsm hT => gcFeedSticky s env a0 a1 al tokens hsm hT,
    fun s env a0 a1 al x hsm hsf =>
      ⟨gcZeroFeedLinear s env a0 a1 al x hsm hsf,
        (gcZeroFeedArcs s env a0 a1 al x hsm hsf).1,
        (gcZeroFeedArcs s env a0 a1 al x hsm hsf).2⟩,
    by decide, by decide, by decide⟩

/-- Witness for c5_feed_rate_rules: the stickiness conjunct applied to a
state with feed rate 7 and the line G0X1, and the zero-feed conjunct at
x = 2 from the boot state. -/
theorem c5_feed_rate_rules_witness :
    ({ initState with feed_rate := 7 } : ParserState).modal.feed_rate = 0 ∧
    (gc_execute_line { initState with feed_rate := 7 } envZero false 0 1 2
        [⟨'G', 0⟩, ⟨'X', 1⟩]).state.feed_rate = (7 : ℚ) ∧
    (gc_execute_line initState envZero false 0 1 2 [⟨'G', 1⟩, ⟨'X', 2⟩]).status =
      Status.GCODE_UNDEFINED_FEED_RATE :=
  ⟨by decide,
    by
      have := c5_feed_rate_rules.1 { initState with feed_rate := 7 } envZero 0 1 2
        [⟨'G', 0⟩, ⟨'X', 1⟩] (by decide) (by decide)
      simpa using this,
    (c5_feed_rate_rules.2.1 initState envZero 0 1 2 2 (by decide) (by decide)).1⟩

/-- Reflection of the radius-mode center under a sign change of R: the
center computed for -R is the mirror image of the center computed for R
through the chord midpoint (x/2, y/2), i.e. the opposite side of the
chord. -/
theorem radiusModeCenter_reflect (x y r : ℚ) (cw : Bool) :
    (radiusModeCenter x y (-r) cw).1 + (radiusModeCenter x y r cw).1 = (x : ℝ) ∧
    (radiusModeCenter x y (-r) cw).2 + (radiusModeCenter x y r cw).2 = (y : ℝ) := by
  unfold radiusModeCenter
  rcases lt_trichotomy r 0 with hr | hr | hr
  · have h1 : ¬ (-r) < 0 := by linarith
    have h2 : (((-r : ℚ)) : ℝ) ^ 2 = ((r : ℚ) : ℝ) ^ 2 := by push_cast; ring
    simp only [h1, hr, if_true, if_false, h2]
    constructor <;> (cases cw <;> simp <;> ring)
  · subst hr
    have hz : (4 * ((0 : ℚ) : ℝ) ^ 2 - (x : ℝ) ^ 2 - (y : ℝ) ^ 2) ≤ 0 := by
      have hx2 : (0 : ℝ) ≤ (x : ℝ) ^ 2 := sq_nonneg _
      have hy2 : (0 : ℝ) ≤ (y : ℝ) ^ 2 := sq_nonneg _
      push_cast
      nlinarith
    have hs : Real.sqrt (4 * ((0 : ℚ) : ℝ) ^ 2 - (x : ℝ) ^ 2 - (y : ℝ) ^ 2) = 0 :=
      Real.sqrt_eq_zero_of_nonpos hz
    simp only [neg_zero, hs]
    constructor <;> (cases cw <;> simp <;> ring)
  · have h1 : (-r) < 0 := by linarith
    have h0 : ¬ r < 0 := by linarith
    have h2 : (((-r : ℚ)) : ℝ) ^ 2 = ((r : ℚ) : ℝ) ^ 2 := by push_cast; ring
    simp only [h1, h0, if_true, if_false, h2]
    constructor <;> (cases cw <;> simp <;> ring)

set_option maxHeartbeats 4000000 in
/-- C7 (confirmed).  Radius-mode arc error checks for a G2 block
X x Y y R r F f from the boot state under the spec plane convention
(axis_0 = 0, axis_1 = 1): a target equal to the current position fails
with STATUS_GCODE_INVALID_TARGET; otherwise STATUS_GCODE_ARC_RADIUS_ERROR
is returned exactly when 4r^2 - d^2 < 0 (d the chord length); when the
geometry is accepted the status is OK and the block hands the positive
radius |r| to execution; and for a negative R the computed center is the
reflection of the positive-R center through the chord midpoint, selecting
the arc of more than 180 degrees. -/
theorem c7_radius_mode_arc (x y r f : ℚ) (hf : 0 < f) :
    ((x = 0 ∧ y = 0) →
      (gc_execute_line initState envZero false 0 1 2
        [⟨'G', 2⟩, ⟨'X', x⟩, ⟨'Y', y⟩, ⟨'R', r⟩, ⟨'F', f⟩]).status =
        Status.GCODE_INVALID_TARGET) ∧
    (¬(x = 0 ∧ y = 0) →
      ((gc_execute_line initState envZero false 0 1 2
        [⟨'G', 2⟩, ⟨'X', x⟩, ⟨'Y', y⟩, ⟨'R', r⟩, ⟨'F', f⟩]).status =
        Status.GCODE_ARC_RADIUS_ERROR ↔ 4 * r * r - x * x - y * y < 0)) ∧
    (¬(x = 0 ∧ y = 0) → ¬(4 * r * r - x * x - y * y < 0) →
      (gc_execute_line initState envZero false 0 1 2
        [⟨'G', 2⟩, ⟨'X', x⟩, ⟨'Y', y⟩, ⟨'R', r⟩, ⟨'F', f⟩]).status = Status.OK ∧
      ((gc_execute_line initState envZero false 0 1 2
        [⟨'G', 2⟩, ⟨'X', x⟩, ⟨'Y', y⟩, ⟨'R', r⟩, ⟨'F', f⟩]).checked.map
          (fun c => c.block.values.r)) = some |r| ∧ 0 < |r|) ∧
    (∀ cw : Bool,
      (radiusModeCenter x y (-r) cw).1 + (radiusModeCenter x y r cw).1 = (x : ℝ) ∧
      (radiusModeCenter x y (-r) cw).2 + (radiusModeCenter x y r cw).2 = (y : ℝ)) := by
  have hf2 : ¬ f < 0 := by linarith
  have hf3 : ¬ f = 0 := by linarith
  refine ⟨?_, ?_, ?_, fun cw => radiusModeCenter_reflect x y r cw⟩
  · rintro ⟨hx, hy⟩
    subst hx; subst hy
    simp [gc_execute_line, parseLoop, processToken, gDispatch, gBodyMotion, commandTail,
      valueTail, initAcc, checkBlock, check0, checkLineNumber, checkFeed, checkDwell,
      loadCoordSys, checkNonModal, checkMotion, checkArc, checkUnused, execute, wClear,
      bitMask, intVal8_two, mant16_two, initState, targetAxis, GVec.zero, GVec.get,
      hf2, hf3]
  · intro hnz
    have hne : ¬((0 : ℚ) = x ∧ (0 : ℚ) = y) := fun hq => hnz ⟨hq.1.symm, hq.2.symm⟩
    simp [gc_execute_line, parseLoop, processToken, gDispatch, gBodyMotion, commandTail,
      valueTail, initAcc, checkBlock, check0, checkLineNumber, checkFeed, checkDwell,
      loadCoordSys, checkNonModal, checkMotion, checkArc, checkUnused, execute, wClear,
      bitMask, intVal8_two, mant16_two, initState, targetAxis, GVec.zero, GVec.get,
      hf2, hf3, hne]
    split_ifs with hc1 <;> simp_all
  · intro hnz hge
    have hne : ¬((0 : ℚ) = x ∧ (0 : ℚ) = y) := fun hq => hnz ⟨hq.1.symm, hq.2.symm⟩
    have hrne : r ≠ 0 := by
      rintro rfl
      apply hnz
      have hx2 : x * x = 0 := by nlinarith [mul_self_nonneg x, mul_self_nonneg y]
      have hy2 : y * y = 0 := by nlinarith [mul_self_nonneg x, mul_self_nonneg y]
      exact ⟨mul_self_eq_zero.mp hx2, mul_self_eq_zero.mp hy2⟩
    refine ⟨?_, ?_, abs_pos.mpr hrne⟩ <;>
    · by_cases hr : r < 0
      · have habs : |r| = -r := abs_of_neg hr
        simp [gc_execute_line, parseLoop, processToken, gDispatch, gBodyMotion, commandTail,
          valueTail, initAcc, checkBlock, check0, checkLineNumber, checkFeed, checkDwell,
          loadCoordSys, checkNonModal, checkMotion, checkArc, checkUnused, execute, wClear,
          bitMask, intVal8_two, mant16_two, initState, targetAxis, GVec.zero, GVec.get,
          hf2, hf3, hne, hr, habs] <;>
        split_ifs <;> simp_all <;> nlinarith
      · have habs : |r| = r := abs_of_nonneg (not_lt.mp hr)
        simp [gc_execute_line, parseLoop, processToken, gDispatch, gBodyMotion, commandTail,
          valueTail, initAcc, checkBlock, check0, checkLineNumber, checkFeed, checkDwell,
          loadCoordSys, checkNonModal, checkMotion, checkArc, checkUnused, execute, wClear,
          bitMask, intVal8_two, mant16_two, initState, targetAxis, GVec.zero, GVec.get,
          hf2, hf3, hne, hr, habs] <;>
        split_ifs <;> simp_all <;> nlinarith

/-- Witness for c7_radius_mode_arc at the block G2 X5 Y5 R5 F100. -/
theorem c7_radius_mode_arc_witness :
    (0 : ℚ) < 100 ∧
    (¬((5 : ℚ) = 0 ∧ (5 : ℚ) = 0) →
      ((gc_execute_line initState envZero false 0 1 2
        [⟨'G', 2⟩, ⟨'X', 5⟩, ⟨'Y', 5⟩, ⟨'R', 5⟩, ⟨'F', 100⟩]).status =
        Status.GCODE_ARC_RADIUS_ERROR ↔
        4 * (5 : ℚ) * 5 - 5 * 5 - 5 * 5 < 0)) :=
  ⟨by norm_num, (c7_radius_mode_arc 5 5 5 100 (by norm_num)).2.1⟩

/-- Square root of B/1000000 is sqrt(B)/1000, used to restate the
0.1-percent threshold. -/
theorem sqrt_rat_div_million (B : ℚ) (hB : 0 ≤ B) :
    Real.sqrt ((B / 1000000 : ℚ) : ℝ) = (1 / 1000 : ℝ) * Real.sqrt ((B : ℚ) : ℝ) := by
  have h1 : ((B / 1000000 : ℚ) : ℝ) = ((B : ℚ) : ℝ) * ((1 : ℝ) / 1000) ^ 2 := by
    push_cast; ring
  rw [h1, Real.sqrt_mul (by exact_mod_cast hB), Real.sqrt_sq (by norm_num)]
  ring

/-- Characterization of the offset-mode acceptance decision in terms of
the real distances: with delta = |sqrt A - sqrt B|, the block is accepted
exactly when delta is at most 0.005 mm, or at most 0.5 mm and at most 0.1
percent of the start radius sqrt B.  This is the disjunctive (EMC-style)
tolerance actually implemented at gcode.c:628-632. -/
theorem arcOffsetOk_iff (A B : ℚ) (hA : 0 ≤ A) (hB : 0 ≤ B) :
    (arcOffsetOk A B = true ↔
      (|Real.sqrt (A : ℝ) - Real.sqrt (B : ℝ)| ≤ 0.005 ∨
       (|Real.sqrt (A : ℝ) - Real.sqrt (B : ℝ)| ≤ 0.5 ∧
        |Real.sqrt (A : ℝ) - Real.sqrt (B : ℝ)| ≤ (1 / 1000) * Real.sqrt (B : ℝ)))) := by
  have hT1 : Real.sqrt ((1 / 40000 : ℚ) : ℝ) = (0.005 : ℝ) := by
    have : ((1 / 40000 : ℚ) : ℝ) = (0.005 : ℝ) ^ 2 := by norm_num
    rw [this, Real.sqrt_sq (by norm_num)]
  have hT2 : Real.sqrt ((1 / 4 : ℚ) : ℝ) = (0.5 : ℝ) := by
    have : ((1 / 4 : ℚ) : ℝ) = (0.5 : ℝ) ^ 2 := by norm_num
    rw [this, Real.sqrt_sq (by norm_num)]
  have e1 := sqrtDiffGt_iff A B (1 / 40000) hA hB (by norm_num)
  have e2 := sqrtDiffGt_iff A B (1 / 4) hA hB (by norm_num)
  have e3 := sqrtDiffGt_iff A B (B / 1000000) hA hB (by positivity)
  rw [hT1] at e1
  rw [hT2] at e2
  rw [sqrt_rat_div_million B hB] at e3
  unfold arcOffsetOk
  split_ifs with h1 h2 h3
  · simp only [Bool.false_eq_true, false_iff]
    push_neg
    rw [e1] at h1
    rw [e2] at h2
    exact ⟨by linarith, fun h5 => by linarith⟩
  · simp only [Bool.false_eq_true, false_iff]
    push_neg
    rw [e1] at h1
    rw [e3] at h3
    exact ⟨by linarith, fun h5 => by linarith⟩
  · simp only [true_iff]
    rw [e2] at h2
    rw [e3] at h3
    push_neg at h2 h3
    exact Or.inr ⟨h2, h3⟩
  · simp only [true_iff]
    rw [e1] at h1
    push_neg at h1
    exact Or.inl h1

set_option maxHeartbeats 4000000 in
/-- Status of the canonical offset-mode G2 block from the boot state: it
is OK exactly when arcOffsetOk accepts the squared distances, and
STATUS_GCODE_INVALID_TARGET exactly otherwise. -/
theorem gcOffsetArcStatus (x y i j f : ℚ) (hf : 0 < f) :
    ((gc_execute_line initState envZero false 0 1 2
        [⟨'G', 2⟩, ⟨'X', x⟩, ⟨'Y', y⟩, ⟨'I', i⟩, ⟨'J', j⟩, ⟨'F', f⟩]).status =
      Status.OK ↔ arcOffsetOk ((x - i) ^ 2 + (y - j) ^ 2) (i ^ 2 + j ^ 2) = true) ∧
    ((gc_execute_line initState envZero false 0 1 2
        [⟨'G', 2⟩, ⟨'X', x⟩, ⟨'Y', y⟩, ⟨'I', i⟩, ⟨'J', j⟩, ⟨'F', f⟩]).status =
      Status.GCODE_INVALID_TARGET ↔
      ¬ arcOffsetOk ((x - i) ^ 2 + (y - j) ^ 2) (i ^ 2 + j ^ 2) = true) := by
  have hf2 : ¬ f < 0 := by linarith
  have hf3 : ¬ f = 0 := by linarith
  by_cases hb : arcOffsetOk ((x - i) ^ 2 + (y - j) ^ 2) (i ^ 2 + j ^ 2) = true <;>
  constructor <;>
  simp [gc_execute_line, parseLoop, processToken, gDispatch, gBodyMotion, commandTail,
    valueTail, initAcc, checkBlock, check0, checkLineNumber, checkFeed, checkDwell,
    loadCoordSys, checkNonModal, checkMotion, checkArc, checkUnused, execute, wClear,
    bitMask, intVal8_two, mant16_two, initState, targetAxis, GVec.zero, GVec.get,
    hf2, hf3, hb]

/-- C2 (corrected).  Counterexample to the claim as stated: the block
G2 X2.004 Y0 I1 J0 F100 from (0,0) has start radius 1 and target radius
1.004, so the radii differ by 0.4 percent of the start radius (more than
0.1 percent), and the claim demands STATUS_GCODE_INVALID_TARGET; the code
accepts the block because the difference 0.004 is within the 0.005 mm
absolute tolerance, which gcode.c:629 treats as sufficient on its own. -/
theorem c2_counterexample :
    (gc_execute_line initState envZero false 0 1 2
        [⟨'G', 2⟩, ⟨'X', 2.004⟩, ⟨'Y', 0⟩, ⟨'I', 1⟩, ⟨'J', 0⟩, ⟨'F', 100⟩]).status =
      Status.OK ∧
    (1 / 1000 : ℝ) * hypot_f 1 0 < |hypot_f 1.004 0 - hypot_f 1 0| := by
  constructor
  · decide
  · have h1 : hypot_f 1 0 = 1 := by
      unfold hypot_f
      norm_num
    have h2 : hypot_f 1.004 0 = 1.004 := by
      unfold hypot_f
      rw [show ((1.004 : ℝ) ^ 2 + 0 ^ 2) = (1.004 : ℝ) ^ 2 by ring,
        Real.sqrt_sq (by norm_num)]
    rw [h1, h2, abs_of_nonneg (by norm_num : (0 : ℝ) ≤ 1.004 - 1)]
    norm_num

/-- C2 (amended).  Offset-mode arc acceptance: a G2 block with plane axis
words and I/J offsets from the boot state is accepted exactly when the
difference delta between the radius from center to current position and
the radius from center to target is at most 0.005 mm, OR at most 0.5 mm
and at most 0.1 percent of the start radius; otherwise it fails with
STATUS_GCODE_INVALID_TARGET.  (The claim stated the 0.005 mm and the 0.1
percent bounds as a conjunction; the code accepts on the absolute bound
alone, and also enforces the 0.5 mm EMC cap on the percentage path.) -/
theorem c2_offset_arc_tolerance (x y i j f : ℚ) (hf : 0 < f) :
    ((gc_execute_line initState envZero false 0 1 2
        [⟨'G', 2⟩, ⟨'X', x⟩, ⟨'Y', y⟩, ⟨'I', i⟩, ⟨'J', j⟩, ⟨'F', f⟩]).status =
      Status.OK ↔
      (|hypot_f ((x : ℝ) - i) ((y : ℝ) - j) - hypot_f (i : ℝ) (j : ℝ)| ≤ 0.005 ∨
       (|hypot_f ((x : ℝ) - i) ((y : ℝ) - j) - hypot_f (i : ℝ) (j : ℝ)| ≤ 0.5 ∧
        |hypot_f ((x : ℝ) - i) ((y : ℝ) - j) - hypot_f (i : ℝ) (j : ℝ)| ≤
          (1 / 1000) * hypot_f (i : ℝ) (j : ℝ)))) ∧
    ((gc_execute_line initState envZero false 0 1 2
        [⟨'G', 2⟩, ⟨'X', x⟩, ⟨'Y', y⟩, ⟨'I', i⟩, ⟨'J', j⟩, ⟨'F', f⟩]).status =
      Status.GCODE_INVALID_TARGET ↔
      ¬(|hypot_f ((x : ℝ) - i) ((y : ℝ) - j) - hypot_f (i : ℝ) (j : ℝ)| ≤ 0.005 ∨
        (|hypot_f ((x : ℝ) - i) ((y : ℝ) - j) - hypot_f (i : ℝ) (j : ℝ)| ≤ 0.5 ∧
         |hypot_f ((x : ℝ) - i) ((y : ℝ) - j) - hypot_f (i : ℝ) (j : ℝ)| ≤
           (1 / 1000) * hypot_f (i : ℝ) (j : ℝ)))) := by
  have hA : (0 : ℚ) ≤ (x - i) ^ 2 + (y - j) ^ 2 := by positivity
  have hB : (0 : ℚ) ≤ i ^ 2 + j ^ 2 := by positivity
  have hiff := arcOffsetOk_iff ((x - i) ^ 2 + (y - j) ^ 2) (i ^ 2 + j ^ 2) hA hB
  have hc1 : (((x - i) ^ 2 + (y - j) ^ 2 : ℚ) : ℝ) = ((x : ℝ) - i) ^ 2 + ((y : ℝ) - j) ^ 2 := by
    push_cast; ring
  have hc2 : ((i ^ 2 + j ^ 2 : ℚ) : ℝ) = (i : ℝ) ^ 2 + (j : ℝ) ^ 2 := by
    push_cast; ring
  rw [hc1, hc2] at hiff
  have hpar := gcOffsetArcStatus x y i j f hf
  constructor
  · rw [hpar.1, hiff]
    unfold hypot_f
    exact Iff.rfl
  · rw [hpar.2, not_iff_not.mpr hiff]
    unfold hypot_f
    exact Iff.rfl

/-- Witness for c2_offset_arc_tolerance at the exact semicircle
G2 X10 Y0 I5 J0 F100, whose two radii are both 5. -/
theorem c2_offset_arc_tolerance_witness :
    (0 : ℚ) < 100 ∧
    ((gc_execute_line initState envZero false 0 1 2
        [⟨'G', 2⟩, ⟨'X', 10⟩, ⟨'Y', 0⟩, ⟨'I', 5⟩, ⟨'J', 0⟩, ⟨'F', 100⟩]).status =
      Status.OK ↔
      (|hypot_f (((10 : ℚ) : ℝ) - ((5 : ℚ) : ℝ)) (((0 : ℚ) : ℝ) - ((0 : ℚ) : ℝ)) -
          hypot_f ((5 : ℚ) : ℝ) ((0 : ℚ) : ℝ)| ≤ 0.005 ∨
       (|hypot_f (((10 : ℚ) : ℝ) - ((5 : ℚ) : ℝ)) (((0 : ℚ) : ℝ) - ((0 : ℚ) : ℝ)) -
          hypot_f ((5 : ℚ) : ℝ) ((0 : ℚ) : ℝ)| ≤ 0.5 ∧
        |hypot_f (((10 : ℚ) : ℝ) - ((5 : ℚ) : ℝ)) (((0 : ℚ) : ℝ) - ((0 : ℚ) : ℝ)) -
          hypot_f ((5 : ℚ) : ℝ) ((0 : ℚ) : ℝ)| ≤
          (1 / 1000) * hypot_f ((5 : ℚ) : ℝ) ((0 : ℚ) : ℝ)))) :=
  ⟨by norm_num, (c2_offset_arc_tolerance 10 0 5 0 100 (by norm_num)).1⟩

/-- Environment with a constant EEPROM coordinate table. -/
def envConst (v : GVec) : Env :=
  { readCoord := fun _ => some v, jogStatus := Status.OK, checkMode := false }

/-- Numeric evaluation for G10. -/
theorem intVal8_ten : intVal8 10 = 10 := by decide

/-- Mantissa of an integer command is zero. -/
theorem mant16_ten : mant16 10 = 0 := by decide

/-- Numeric evaluation for L20. -/
theorem intVal8_twenty : intVal8 20 = 20 := by decide

/-- Numeric evaluation of the zero default value. -/
theorem intVal8_zero : intVal8 0 = 0 := by decide

/-- C8 (corrected).  Counterexample to the claim as stated: the block
G10 L20 X1 carries no P word, and the claim demands
STATUS_GCODE_VALUE_WORD_MISSING; the code accepts it, because the check at
gcode.c:412 uses bit_isfalse on the OR of the P and L masks and therefore
only fires when BOTH P and L are missing; the absent P is then read as
P0 (the active coordinate system). -/
theorem c8_counterexample :
    (gc_execute_line initState envZero false 0 1 2
        [⟨'G', 10⟩, ⟨'L', 20⟩, ⟨'X', 1⟩]).status = Status.OK ∧
    (gc_execute_line initState envZero false 0 1 2
        [⟨'G', 10⟩, ⟨'L', 20⟩, ⟨'X', 1⟩]).status ≠ Status.GCODE_VALUE_WORD_MISSING := by
  refine ⟨by decide, by decide⟩

set_option maxHeartbeats 4000000 in
/-- C8 (amended).  G10 coordinate-set semantics: a G10 block with no axis
words fails with STATUS_GCODE_NO_AXIS_WORDS; with BOTH P and L missing it
fails with STATUS_GCODE_VALUE_WORD_MISSING (one of the two suffices to
pass that check); with P present but L missing it fails with
STATUS_GCODE_UNSUPPORTED_COMMAND (L defaults to 0, which is neither 2 nor
20); a truncated P value above N_COORDINATE_SYSTEM fails with
STATUS_GCODE_UNSUPPORTED_COORD_SYS; a valid G10 P(>0) L20 X x block writes
slot trunc(P)-1 with x-entry position - coord_offset - x and keeps the
stored value on the wordless axis; the same block with L2 writes the
programmed x directly; and a missing P selects the active coordinate
system (slot 0 here). -/
theorem c8_g10_semantics (px py ox oy tx ty p l x : ℚ)
    (hp : ¬ p < 0) (hp6 : ¬ 6 < intVal8 p) (hp0 : 0 < intVal8 p) :
    ((gc_execute_line { initState with position := ⟨px, py⟩, coord_offset := ⟨ox, oy⟩ }
        (envConst ⟨tx, ty⟩) false 0 1 2
        [⟨'G', 10⟩, ⟨'P', p⟩, ⟨'L', l⟩]).status = Status.GCODE_NO_AXIS_WORDS) ∧
    ((gc_execute_line { initState with position := ⟨px, py⟩, coord_offset := ⟨ox, oy⟩ }
        (envConst ⟨tx, ty⟩) false 0 1 2
        [⟨'G', 10⟩, ⟨'X', x⟩]).status = Status.GCODE_VALUE_WORD_MISSING) ∧
    ((gc_execute_line { initState with position := ⟨px, py⟩, coord_offset := ⟨ox, oy⟩ }
        (envConst ⟨tx, ty⟩) false 0 1 2
        [⟨'G', 10⟩, ⟨'P', p⟩, ⟨'X', x⟩]).status = Status.GCODE_UNSUPPORTED_COMMAND) ∧
    (∀ q : ℚ, ¬ q < 0 → 6 < intVal8 q →
      (gc_execute_line { initState with position := ⟨px, py⟩, coord_offset := ⟨ox, oy⟩ }
        (envConst ⟨tx, ty⟩) false 0 1 2
        [⟨'G', 10⟩, ⟨'P', q⟩, ⟨'L', 2⟩, ⟨'X', x⟩]).status =
        Status.GCODE_UNSUPPORTED_COORD_SYS) ∧
    ((gc_execute_line { initState with position := ⟨px, py⟩, coord_offset := ⟨ox, oy⟩ }
        (envConst ⟨tx, ty⟩) false 0 1 2
        [⟨'G', 10⟩, ⟨'P', p⟩, ⟨'L', 20⟩, ⟨'X', x⟩]).status = Status.OK ∧
      (gc_execute_line { initState with position := ⟨px, py⟩, coord_offset := ⟨ox, oy⟩ }
        (envConst ⟨tx, ty⟩) false 0 1 2
        [⟨'G', 10⟩, ⟨'P', p⟩, ⟨'L', 20⟩, ⟨'X', x⟩]).wroteCoord =
        some (intVal8 p - 1, ⟨px - ox - x, ty⟩)) ∧
    ((gc_execute_line { initState with position := ⟨px, py⟩, coord_offset := ⟨ox, oy⟩ }
        (envConst ⟨tx, ty⟩) false 0 1 2
        [⟨'G', 10⟩, ⟨'P', p⟩, ⟨'L', 2⟩, ⟨'X', x⟩]).wroteCoord =
        some (intVal8 p - 1, ⟨x, ty⟩)) ∧
    ((gc_execute_line { initState with position := ⟨px, py⟩, coord_offset := ⟨ox, oy⟩ }
        (envConst ⟨tx, ty⟩) false 0 1 2
        [⟨'G', 10⟩, ⟨'L', 20⟩, ⟨'X', x⟩]).wroteCoord =
        some (0, ⟨px - ox - x, ty⟩)) := by
  have hp0b : intVal8 p > 0 := hp0
  refine ⟨?_, ?_, ?_, ?_, ⟨?_, ?_⟩, ?_, ?_⟩ <;>
    first
      | (intro q hq hq6
         simp [gc_execute_line, parseLoop, processToken, gDispatch, gBodyNonModal,
           commandTail, valueTail, initAcc, checkBlock, check0, checkLineNumber,
           checkFeed, checkDwell, loadCoordSys, checkNonModal, g10Axis, checkMotion,
           checkArc, checkUnused, execute, wClear, bitMask, intVal8_ten, mant16_ten,
           intVal8_two, mant16_two, intVal8_twenty, initState, envConst, GVec.zero,
           GVec.get, hq, hq6])
      | simp [gc_execute_line, parseLoop, processToken, gDispatch, gBodyNonModal,
          commandTail, valueTail, initAcc, checkBlock, check0, checkLineNumber,
          checkFeed, checkDwell, loadCoordSys, checkNonModal, g10Axis, checkMotion,
          checkArc, checkUnused, execute, wClear, bitMask, intVal8_ten, mant16_ten,
          intVal8_two, mant16_two, intVal8_twenty, intVal8_zero, initState, envConst,
          GVec.zero, GVec.get, hp, hp6, hp0b]

/-- Witness for c8_g10_semantics with position (8,9), offset (1,1), stored
table entry (5,6), P2 and X3. -/
theorem c8_g10_semantics_witness :
    (¬ (2 : ℚ) < 0) ∧ (¬ 6 < intVal8 2) ∧ 0 < intVal8 2 ∧
    ((gc_execute_line { initState with position := ⟨8, 9⟩, coord_offset := ⟨1, 1⟩ }
        (envConst ⟨5, 6⟩) false 0 1 2
        [⟨'G', 10⟩, ⟨'P', 2⟩, ⟨'L', 20⟩, ⟨'X', 3⟩]).status = Status.OK ∧
      (gc_execute_line { initState with position := ⟨8, 9⟩, coord_offset := ⟨1, 1⟩ }
        (envConst ⟨5, 6⟩) false 0 1 2
        [⟨'G', 10⟩, ⟨'P', 2⟩, ⟨'L', 20⟩, ⟨'X', 3⟩]).wroteCoord =
        some (intVal8 2 - 1, ⟨8 - 1 - 3, 6⟩)) :=
  ⟨by decide, by decide, by decide,
    (c8_g10_semantics 8 9 1 1 5 6 2 20 3 (by decide) (by decide) (by decide)).2.2.2.2.1⟩

/-- Witness for c6_axis_command_conflict: G10 with G0 conflicts, G92.1 with
G0 does not. -/
theorem c6_axis_command_conflict_witness :
    (gc_execute_line initState envZero false 0 1 2
        [⟨'G', 10⟩, ⟨'G', 0⟩]).status = Status.GCODE_AXIS_COMMAND_CONFLICT ∧
    (gc_execute_line initState envZero false 0 1 2
        [⟨'G', 92.1⟩, ⟨'G', 0⟩]).status ≠ Status.GCODE_AXIS_COMMAND_CONFLICT :=
  ⟨(c6_axis_command_conflict.1 10 (by decide) 0 (by decide)).1,
   (c6_axis_command_conflict.2 92.1 (by decide) 0 (by decide)).1⟩

end Grbl
